import Mathlib

/-!
Shallow embedding of the stripe-sdk webhook pipeline, cache adapters,
customer-first checkout flow and configuration loading, translated from the
TypeScript sources:

  src/next/handlers/webhook.ts   (webhook pipeline)
  src/adapters/memory.ts         (in-memory KV adapter)
  src/adapters/upstash.ts        (remote KV adapter with JSON wire encoding)
  src/providers/stripe/api.ts    (StripeProvider, customer-first checkout)
  src/core/config.ts             (configuration loading and validation)

Conventions of the embedding:
  * `Promise`-returning fallible TypeScript code becomes `Except Err`.
  * JavaScript truthiness on optional strings (`if (!x)`) is `truthyStr`.
  * Epoch-second timestamps multiplied by 1000 (`new Date(x * 1000)`) are
    kept as the integer millisecond value.
  * External collaborators (the Stripe client, the redis client) are fields
    of an environment record supplied to each function.
-/

set_option maxHeartbeats 1000000

deriving instance DecidableEq for Except

namespace StripeSdk

/-- JavaScript truthiness for an optional string: `undefined`/`null` and the
empty string are falsy; every other string is kept. -/
def truthyStr : Option String → Option String
  | none => none
  | some s => if s = "" then none else some s

/-- Metadata object: a string-keyed record of strings. -/
abbrev Meta := List (String × String)

/-- Property access on a metadata object (keys are unique in a JS object, so
the first binding decides). -/
def metaLookup (m : Meta) (k : String) : Option String :=
  match m with
  | [] => none
  | (k', v) :: t => if k' = k then some v else metaLookup t k

/-- One line item of a subscription (`SubscriptionItem` in core/types.ts). -/
structure SubItem where
  id : String
  priceId : String
  quantity : Int
deriving DecidableEq

/-- A checkout session snapshot (`CheckoutSession` in core/types.ts). -/
structure CheckoutSession where
  id : String
  url : String
  status : String
  customerId : Option String
  metadata : Option Meta
  createdAt : Int
deriving DecidableEq

/-- A subscription snapshot (`Subscription` in core/types.ts). -/
structure Subscription where
  id : String
  customerId : String
  status : String
  currentPeriodEnd : Int
  currentPeriodStart : Int
  cancelAtPeriodEnd : Bool
  items : List SubItem
  metadata : Option Meta
  createdAt : Int
deriving DecidableEq

/-- A customer snapshot (`Customer` in core/types.ts). -/
structure Customer where
  id : String
  email : String
  name : Option String
  metadata : Option Meta
  createdAt : Int
deriving DecidableEq

/-- Errors thrown by the SDK: `WebhookError (message, code)`,
`PaymentError (message, code, statusCode)`, `ConfigError`, and anything
else a callback may throw (core/errors.ts). -/
inductive Err where
  | webhook (message code : String)
  | payment (message code : String) (statusCode : Int)
  | config (message : String)
  | other (message : String)
deriving DecidableEq

/-- The `error instanceof WebhookError` test of webhook.ts. -/
def Err.isWebhookError : Err → Bool
  | .webhook _ _ => true
  | _ => false

end StripeSdk

namespace StripeSdk

/-! ## In-memory KV adapter (src/adapters/memory.ts)

`createMemoryAdapter` keeps a `Map<string, StorageEntry>` where an entry is
`value` plus optional `expiresAt` (epoch ms).  The map is an association
list here; `Date.now()` is an explicit `now : Int` argument. -/

/-- A stored entry: the value and the optional absolute expiry time in ms
(`StorageEntry` in memory.ts). -/
structure MemEntry (α : Type) where
  value : α
  expiresAt : Option Int
deriving DecidableEq

/-- The adapter's backing map, as an association list with unique keys. -/
abbrev MemStore (α : Type) := List (String × MemEntry α)

/-- `Map.get`: the first binding of the key, if any. -/
def lookupKey {α : Type} (s : MemStore α) (k : String) : Option (MemEntry α) :=
  match s with
  | [] => none
  | (k', e) :: t => if k' = k then some e else lookupKey t k

/-- `Map.set`: replace the binding in place, or append a new one. -/
def setKey {α : Type} (s : MemStore α) (k : String) (e : MemEntry α) : MemStore α :=
  match s with
  | [] => [(k, e)]
  | (k', e') :: t => if k' = k then (k, e) :: t else (k', e') :: setKey t k e

/-- `Map.delete`: drop every binding of the key (a JS map holds at most one). -/
def eraseKey {α : Type} (s : MemStore α) (k : String) : MemStore α :=
  s.filter (fun p => p.1 ≠ k)

namespace MemoryAdapter

/-- memory.ts `set`: store the value; `if (ttlSeconds && ttlSeconds > 0)`
attach `expiresAt = Date.now() + ttlSeconds * 1000`, otherwise the entry is
permanent (omitted, zero and negative TTLs are all falsy or fail the guard). -/
def set {α : Type} (now : Int) (s : MemStore α) (k : String) (v : α)
    (ttlSeconds : Option Int) : MemStore α :=
  let e : MemEntry α :=
    match ttlSeconds with
    | some t => if t ≠ 0 ∧ t > 0 then ⟨v, some (now + t * 1000)⟩ else ⟨v, none⟩
    | none => ⟨v, none⟩
  setKey s k e

/-- memory.ts `get`: `null` when no entry exists; when the entry carries a
truthy `expiresAt` that is `< Date.now()` it is deleted and `null` returned;
otherwise the value.  Returns the possibly-updated store as well. -/
def get {α : Type} (now : Int) (s : MemStore α) (k : String) :
    Option α × MemStore α :=
  match lookupKey s k with
  | none => (none, s)
  | some e =>
    match e.expiresAt with
    | some x => if x ≠ 0 ∧ x < now then (none, eraseKey s k) else (some e.value, s)
    | none => (some e.value, s)

/-- memory.ts `delete`: unconditional map delete. -/
def del {α : Type} (s : MemStore α) (k : String) : MemStore α :=
  eraseKey s k

end MemoryAdapter

/-- A TTL argument that memory.ts treats as "permanent": omitted, zero, or
negative. -/
def permanentTtl (ttlSeconds : Option Int) : Prop :=
  ttlSeconds = none ∨ ∃ t, ttlSeconds = some t ∧ t ≤ 0

/-- No entry of the store carries the degenerate expiry instant `0` (which JS
truthiness would treat as "no expiry").  Every store reachable through
`MemoryAdapter.set` with a nonnegative clock satisfies this. -/
def noZeroExpiry {α : Type} (s : MemStore α) : Prop :=
  ∀ k e, lookupKey s k = some e → e.expiresAt ≠ some 0

end StripeSdk

namespace StripeSdk

theorem lookupKey_setKey_self {α : Type} (s : MemStore α) (k : String) (e : MemEntry α) :
    lookupKey (setKey s k e) k = some e := by
  induction s with
  | nil => simp [setKey, lookupKey]
  | cons hd t ih =>
    by_cases h : hd.1 = k
    · simp [setKey, lookupKey, h]
    · simp [setKey, lookupKey, h, ih]

theorem lookupKey_setKey_other {α : Type} (s : MemStore α) (k k' : String)
    (e : MemEntry α) (hne : k' ≠ k) :
    lookupKey (setKey s k' e) k = lookupKey s k := by
  induction s with
  | nil => simp [setKey, lookupKey, hne]
  | cons hd t ih =>
    by_cases h : hd.1 = k'
    · simp [setKey, lookupKey, h, hne]
    · simp only [setKey, lookupKey, h, if_false]
      by_cases h2 : hd.1 = k <;> simp [h2, ih]

theorem lookupKey_eraseKey_self {α : Type} (s : MemStore α) (k : String) :
    lookupKey (eraseKey s k) k = none := by
  induction s with
  | nil => simp [eraseKey, lookupKey]
  | cons hd t ih =>
    by_cases h : hd.1 = k
    · simpa [eraseKey, h] using ih
    · simpa [eraseKey, lookupKey, h] using ih

end StripeSdk

namespace StripeSdk

/-- C7: for the in-memory cache adapter, `set` with `ttlSeconds` omitted,
zero, or negative stores a permanent entry that is never considered expired;
`get` returns null exactly when the key is absent or its entry's expiry
instant has passed; and reading an expired-but-not-yet-swept entry returns
null and removes that entry from storage on access.  (The second part is
stated for stores without the degenerate expiry instant `0`, which JS
truthiness exempts from the expiry check; the last part shows `set` never
creates such an instant under a nonnegative clock.) -/
theorem memoryAdapter_ttl_semantics :
    (∀ (α : Type) (s : MemStore α) (k : String) (v : α) (ttl : Option Int)
        (now now' : Int), permanentTtl ttl →
        (MemoryAdapter.get now' (MemoryAdapter.set now s k v ttl) k).1 = some v)
    ∧ (∀ (α : Type) (s : MemStore α) (k : String) (now : Int), noZeroExpiry s →
        ((MemoryAdapter.get now s k).1 = none ↔
          lookupKey s k = none ∨
            ∃ e x, lookupKey s k = some e ∧ e.expiresAt = some x ∧ x < now))
    ∧ (∀ (α : Type) (s : MemStore α) (k : String) (e : MemEntry α) (x now : Int),
        lookupKey s k = some e → e.expiresAt = some x → x ≠ 0 → x < now →
        (MemoryAdapter.get now s k).1 = none ∧
          lookupKey (MemoryAdapter.get now s k).2 k = none)
    ∧ (∀ (α : Type) (s : MemStore α) (k : String) (v : α) (ttl : Option Int)
        (now : Int), 0 ≤ now → noZeroExpiry s →
        noZeroExpiry (MemoryAdapter.set now s k v ttl)) := by
  refine ⟨?perm, ?char, ?sweep, ?inv⟩
  case perm =>
    intro α s k v ttl now now' hp
    have hent : MemoryAdapter.set now s k v ttl = setKey s k ⟨v, none⟩ := by
      rcases hp with h | ⟨t, ht, hle⟩
      · simp [MemoryAdapter.set, h]
      · simp only [MemoryAdapter.set, ht]
        have : ¬ (t ≠ 0 ∧ t > 0) := by omega
        simp [this]
    rw [hent]
    simp [MemoryAdapter.get, lookupKey_setKey_self]
  case char =>
    intro α s k now hz
    match hl : lookupKey s k with
    | none => simp [MemoryAdapter.get, hl]
    | some e =>
      match hx : e.expiresAt with
      | none =>
        simp only [MemoryAdapter.get, hl, hx]
        refine iff_of_false (by simp) ?_
        rintro (h | ⟨e', x, he', hx', _⟩)
        · exact Option.noConfusion h
        · injection he' with he''
          rw [← he''] at hx'
          rw [hx] at hx'
          exact Option.noConfusion hx'
      | some x =>
        have hx0 : x ≠ 0 := by
          intro h; exact hz k e hl (by rw [hx, h])
        simp only [MemoryAdapter.get, hl, hx]
        by_cases hlt : x < now
        · rw [if_pos ⟨hx0, hlt⟩]
          exact iff_of_true rfl (Or.inr ⟨e, x, rfl, hx, hlt⟩)
        · rw [if_neg (fun h => hlt h.2)]
          refine iff_of_false (by simp) ?_
          rintro (h | ⟨e', x', he', hx', hlt'⟩)
          · exact Option.noConfusion h
          · injection he' with he''
            rw [← he''] at hx'
            rw [hx] at hx'
            injection hx' with hxx
            exact hlt (hxx ▸ hlt')
  case sweep =>
    intro α s k e x now hl hx h0 hlt
    have hrun : MemoryAdapter.get now s k = (none, eraseKey s k) := by
      simp only [MemoryAdapter.get, hl, hx]
      rw [if_pos ⟨h0, hlt⟩]
    rw [hrun]
    exact ⟨rfl, lookupKey_eraseKey_self s k⟩
  case inv =>
    intro α s k v ttl now hnow hz
    have hset : ∃ ent : MemEntry α, MemoryAdapter.set now s k v ttl = setKey s k ent ∧
        ent.expiresAt ≠ some 0 := by
      match ttl with
      | none => exact ⟨⟨v, none⟩, rfl, by simp⟩
      | some t =>
        by_cases hpos : t ≠ 0 ∧ t > 0
        · refine ⟨⟨v, some (now + t * 1000)⟩, by simp [MemoryAdapter.set, hpos], ?_⟩
          intro hc
          simp only [Option.some.injEq] at hc
          have h1000 : (1 : Int) * 1000 ≤ t * 1000 :=
            mul_le_mul_of_nonneg_right (by omega) (by norm_num)
          omega
        · exact ⟨⟨v, none⟩, by simp [MemoryAdapter.set, hpos], by simp⟩
    obtain ⟨ent, heq, hne⟩ := hset
    intro k' e' hl'
    rw [heq] at hl'
    by_cases hk : k' = k
    · subst hk
      rw [lookupKey_setKey_self] at hl'
      injection hl' with he''
      rw [← he'']
      exact hne
    · rw [lookupKey_setKey_other s k' k ent (fun h => hk h.symm)] at hl'
      exact hz k' e' hl'

/-- Witness for `memoryAdapter_ttl_semantics` at concrete inputs: a negative
TTL stores a permanent entry still readable at a much later clock, and an
entry whose expiry instant has passed reads as null and is removed. -/
theorem memoryAdapter_ttl_semantics_witness :
    (MemoryAdapter.get 999999 (MemoryAdapter.set 0 ([] : MemStore Nat) "k" 7 (some (-5))) "k").1 = some 7
    ∧ (MemoryAdapter.get 2 [("k", (⟨7, some 1⟩ : MemEntry Nat))] "k").1 = none
    ∧ lookupKey (MemoryAdapter.get 2 [("k", (⟨7, some 1⟩ : MemEntry Nat))] "k").2 "k" = none := by
  refine ⟨?_, ?_, ?_⟩
  · exact memoryAdapter_ttl_semantics.1 Nat [] "k" 7 (some (-5)) 0 999999
      (Or.inr ⟨-5, rfl, by norm_num⟩)
  · exact (memoryAdapter_ttl_semantics.2.2.1 Nat [("k", ⟨7, some 1⟩)] "k" ⟨7, some 1⟩ 1 2
      (by simp [lookupKey]) rfl (by norm_num) (by norm_num)).1
  · exact (memoryAdapter_ttl_semantics.2.2.1 Nat [("k", ⟨7, some 1⟩)] "k" ⟨7, some 1⟩ 1 2
      (by simp [lookupKey]) rfl (by norm_num) (by norm_num)).2

end StripeSdk

namespace StripeSdk

/-! ## Webhook pipeline (src/next/handlers/webhook.ts)

`createWebhookHandler(options)` returns an async request handler.  The
handler rejects non-POST requests, rejects requests without a
`stripe-signature` header, verifies the signature through the provider,
then (inside one big `try`) fetches fresh data from Stripe, writes the
cache, calls the sync adapter and the user handlers, and acknowledges.
The outer `catch` maps a `WebhookError` to a 401 and anything else to a
200 acknowledgement with an informational `error` field.

The embedding threads an explicit `Trace` recording, in order, the Stripe
fetches, the cache operations, the sync-adapter calls and the user-handler
calls the run performed, so that "no side effects" and "invoked exactly
once with this entity" are statable. -/

/-- Reference to a customer inside a Stripe API response: either the plain
id string or an expanded object (only its `id` is ever read). -/
inductive CustRef where
  | byId (id : String)
  | expanded (id : String)
deriving DecidableEq

/-- The id denoted by a customer reference
(`typeof c === 'string' ? c : c?.id`). -/
def CustRef.refId : CustRef → String
  | .byId i => i
  | .expanded i => i

/-- Raw checkout-session shape returned by
`stripe.checkout.sessions.retrieve` / `create`. -/
structure RawCheckoutSession where
  id : String
  url : Option String
  status : Option String
  customer : Option CustRef
  metadata : Option Meta
  created : Int
deriving DecidableEq

/-- Raw subscription item shape (`item.quantity` may be null). -/
structure RawSubItem where
  id : String
  priceId : String
  quantity : Option Int
deriving DecidableEq

/-- Raw subscription shape returned by `stripe.subscriptions.retrieve`. -/
structure RawSubscription where
  id : String
  customer : Option CustRef
  status : String
  currentPeriodEndSec : Int
  currentPeriodStartSec : Int
  cancelAtPeriodEnd : Bool
  items : List RawSubItem
  metadata : Option Meta
  created : Int
deriving DecidableEq

/-- Raw customer shape returned by `stripe.customers.retrieve` (the
`deleted` marker is what webhook.ts checks before mapping). -/
structure RawCustomer where
  id : String
  email : Option String
  name : Option String
  metadata : Option Meta
  deleted : Bool
  created : Int
deriving DecidableEq

/-- webhook.ts `fetchLatestCheckoutSession`, mapping step: build the
`CheckoutSession` snapshot from the raw response (`url ?? ''`,
`status ?? 'open'`, customer id from string or expanded object). -/
def fetchLatestCheckoutSession (raw : RawCheckoutSession) : CheckoutSession :=
  { id := raw.id
    url := raw.url.getD ""
    status := raw.status.getD "open"
    customerId := raw.customer.map CustRef.refId
    metadata := raw.metadata
    createdAt := raw.created * 1000 }

/-- webhook.ts `fetchLatestSubscription`, mapping step
(`customer ... ?? ''`, `quantity ?? 1`). -/
def fetchLatestSubscription (raw : RawSubscription) : Subscription :=
  { id := raw.id
    customerId := (raw.customer.map CustRef.refId).getD ""
    status := raw.status
    currentPeriodEnd := raw.currentPeriodEndSec * 1000
    currentPeriodStart := raw.currentPeriodStartSec * 1000
    cancelAtPeriodEnd := raw.cancelAtPeriodEnd
    items := raw.items.map (fun it => ⟨it.id, it.priceId, it.quantity.getD 1⟩)
    metadata := raw.metadata
    createdAt := raw.created * 1000 }

/-- webhook.ts `fetchLatestCustomer`, mapping step: a deleted customer
raises `PaymentError(CUSTOMER_NOT_FOUND, 404)`; otherwise map with
`email ?? ''`. -/
def fetchLatestCustomer (raw : RawCustomer) : Except Err Customer :=
  if raw.deleted then
    .error (.payment ("Customer " ++ raw.id ++ " has been deleted")
      "CUSTOMER_NOT_FOUND" 404)
  else
    .ok { id := raw.id
          email := raw.email.getD ""
          name := raw.name
          metadata := raw.metadata
          createdAt := raw.created * 1000 }

/-- The embedded event payload (`event.data`).  The pipeline reads only
`id`; `claimedStatus` stands for every other field of the embedded object
(in particular the status the payload claims), present so that
payload-independence is a nontrivial statement. -/
structure EventPayload where
  id : String
  claimedStatus : String
deriving DecidableEq

/-- A verified webhook event (`WebhookEvent` in core/types.ts). -/
structure WebhookEvent where
  id : String
  type : String
  data : EventPayload
  created : Int
deriving DecidableEq

/-- A value written to the KV cache by the pipeline. -/
inductive CVal where
  | ofSession (s : CheckoutSession)
  | ofSubscription (s : Subscription)
  | ofCustomer (c : Customer)
  | ofString (s : String)
deriving DecidableEq

/-- A Stripe retrieve call performed by the pipeline. -/
inductive FetchCall where
  | checkoutSession (id : String)
  | subscription (id : String)
  | customer (id : String)
deriving DecidableEq

/-- A cache operation performed by the pipeline. -/
inductive CacheOp where
  | get (key : String)
  | set (key : String) (value : CVal) (ttlSeconds : Option Int)
  | del (key : String)
deriving DecidableEq

/-- A sync-adapter callback invocation, with its argument. -/
inductive SyncCall where
  | customerCreated (c : Customer)
  | subscriptionUpdated (s : Subscription)
  | subscriptionCanceled (s : Subscription)
deriving DecidableEq

/-- A user-handler invocation, with its argument. -/
inductive HandlerCall where
  | checkoutComplete (s : CheckoutSession)
  | subscriptionCreated (s : Subscription)
  | subscriptionUpdated (s : Subscription)
  | subscriptionCanceled (s : Subscription)
deriving DecidableEq

/-- The side effects of one webhook request, in order of occurrence. -/
structure Trace where
  verifyCalls : List (String × String)
  fetches : List FetchCall
  cacheOps : List CacheOp
  syncCalls : List SyncCall
  handlerCalls : List HandlerCall
deriving DecidableEq

/-- The empty trace: nothing has happened. -/
def Trace.empty : Trace := ⟨[], [], [], [], []⟩

def Trace.addVerify (tr : Trace) (c : String × String) : Trace :=
  { tr with verifyCalls := tr.verifyCalls ++ [c] }

def Trace.addFetch (tr : Trace) (f : FetchCall) : Trace :=
  { tr with fetches := tr.fetches ++ [f] }

def Trace.addCacheOp (tr : Trace) (op : CacheOp) : Trace :=
  { tr with cacheOps := tr.cacheOps ++ [op] }

def Trace.addSync (tr : Trace) (c : SyncCall) : Trace :=
  { tr with syncCalls := tr.syncCalls ++ [c] }

def Trace.addHandler (tr : Trace) (c : HandlerCall) : Trace :=
  { tr with handlerCalls := tr.handlerCalls ++ [c] }

/-- The optional sync adapter (`SyncAdapter` in core/types.ts): each
callback may itself fail. -/
structure SyncAdapter where
  onCustomerCreated : Option (Customer → Except Err Unit)
  onSubscriptionUpdated : Option (Subscription → Except Err Unit)
  onSubscriptionCanceled : Option (Subscription → Except Err Unit)

/-- The sync adapter with no callbacks configured. -/
def SyncAdapter.none : SyncAdapter := ⟨Option.none, Option.none, Option.none⟩

/-- The user-defined handlers (`WebhookEventHandlers` in webhook.ts). -/
structure WebhookEventHandlers where
  onCheckoutComplete : Option (CheckoutSession → Except Err Unit)
  onSubscriptionCreated : Option (Subscription → Except Err Unit)
  onSubscriptionUpdated : Option (Subscription → Except Err Unit)
  onSubscriptionCanceled : Option (Subscription → Except Err Unit)

/-- The handler set with nothing configured. -/
def WebhookEventHandlers.none : WebhookEventHandlers :=
  ⟨Option.none, Option.none, Option.none, Option.none⟩

/-- The collaborators of one webhook request: the provider's
`verifyWebhook`, `loadStripeConfig()` (step 4 of the handler), the Stripe
retrieve calls, the KV adapter's `set`, and the configured sync adapter
and user handlers.  Each is a pure function that may return an error, as
the corresponding call may reject. -/
structure WebhookEnv where
  verifyWebhook : String → String → Except Err WebhookEvent
  loadConfig : Except Err Unit
  retrieveCheckoutSession : String → Except Err RawCheckoutSession
  retrieveSubscription : String → Except Err RawSubscription
  retrieveCustomer : String → Except Err RawCustomer
  cacheSet : String → CVal → Option Int → Except Err Unit
  sync : SyncAdapter
  handlers : WebhookEventHandlers

/-- One `await cache.set(key, value, ttl)`: the operation is recorded,
then the adapter's result decides whether the pipeline continues. -/
def doCacheSet (env : WebhookEnv) (k : String) (v : CVal) (ttl : Option Int)
    (tr : Trace) : Except Err Unit × Trace :=
  (env.cacheSet k v ttl, tr.addCacheOp (.set k v ttl))

/-- One `await fetchLatestCustomer(stripe, id)`: record the retrieve, run
it, then apply the deleted-check mapping. -/
def doFetchCustomer (env : WebhookEnv) (cid : String) (tr : Trace) :
    Except Err Customer × Trace :=
  let tr := tr.addFetch (.customer cid)
  match env.retrieveCustomer cid with
  | .error e => (.error e, tr)
  | .ok raw => (fetchLatestCustomer raw, tr)

/-- Cache steps of the `checkout.session.completed` branch that run when
the fresh session has a (truthy) customer id: re-fetch the customer, cache
it under `customer:<id>` (24h), under `customer:email:<email>` when the
email is truthy, and the id under `customer:userId:<userId>` when the
metadata carries a truthy userId. -/
def cacheCustomerOfSession (env : WebhookEnv) (latest : CheckoutSession)
    (tr : Trace) : Except Err Unit × Trace :=
  match truthyStr latest.customerId with
  | none => (.ok (), tr)
  | some cid =>
    match doFetchCustomer env cid tr with
    | (.error e, tr) => (.error e, tr)
    | (.ok c, tr) =>
      match doCacheSet env ("customer:" ++ c.id) (.ofCustomer c) (some 86400) tr with
      | (.error e, tr) => (.error e, tr)
      | (.ok _, tr) =>
        match truthyStr (some c.email) with
        | none => cacheUserIdOfCustomer env c tr
        | some email =>
          match doCacheSet env ("customer:email:" ++ email) (.ofCustomer c) (some 86400) tr with
          | (.error e, tr) => (.error e, tr)
          | (.ok _, tr) => cacheUserIdOfCustomer env c tr
where
  /-- `if (customer.metadata?.userId)` then cache the customer id. -/
  cacheUserIdOfCustomer (env : WebhookEnv) (c : Customer) (tr : Trace) :
      Except Err Unit × Trace :=
    match truthyStr (c.metadata.bind (fun m => metaLookup m "userId")) with
    | none => (.ok (), tr)
    | some uid =>
      doCacheSet env ("customer:userId:" ++ uid) (.ofString c.id) (some 86400) tr

/-- Sync step of the checkout branch: `if (sync?.onCustomerCreated &&
latestData.customerId)` re-fetch the customer (again) and hand it to the
callback. -/
def syncCustomerOfSession (env : WebhookEnv) (latest : CheckoutSession)
    (tr : Trace) : Except Err Unit × Trace :=
  match env.sync.onCustomerCreated, truthyStr latest.customerId with
  | some cb, some cid =>
    match doFetchCustomer env cid tr with
    | (.error e, tr) => (.error e, tr)
    | (.ok c, tr) => (cb c, tr.addSync (.customerCreated c))
  | _, _ => (.ok (), tr)

/-- The `checkout.session.completed` branch: fetch the fresh session,
cache it one hour under `checkout:<id>`, cache its customer, call the sync
adapter's `onCustomerCreated`, then the user's `onCheckoutComplete`. -/
def processCheckoutCompleted (env : WebhookEnv) (sessionId : String)
    (tr : Trace) : Except Err Unit × Trace :=
  let tr := tr.addFetch (.checkoutSession sessionId)
  match env.retrieveCheckoutSession sessionId with
  | .error e => (.error e, tr)
  | .ok raw =>
    let latest := fetchLatestCheckoutSession raw
    match doCacheSet env ("checkout:" ++ latest.id) (.ofSession latest) (some 3600) tr with
    | (.error e, tr) => (.error e, tr)
    | (.ok _, tr) =>
      match cacheCustomerOfSession env latest tr with
      | (.error e, tr) => (.error e, tr)
      | (.ok _, tr) =>
        match syncCustomerOfSession env latest tr with
        | (.error e, tr) => (.error e, tr)
        | (.ok _, tr) =>
          match env.handlers.onCheckoutComplete with
          | none => (.ok (), tr)
          | some h => (h latest, tr.addHandler (.checkoutComplete latest))

/-- The `customer.subscription.created` branch: fetch fresh, cache one
hour under `subscription:<id>` and the id under
`subscription:customer:<customerId>`, call `sync.onSubscriptionUpdated`,
then the user's `onSubscriptionCreated`. -/
def processSubscriptionCreated (env : WebhookEnv) (subId : String)
    (tr : Trace) : Except Err Unit × Trace :=
  let tr := tr.addFetch (.subscription subId)
  match env.retrieveSubscription subId with
  | .error e => (.error e, tr)
  | .ok raw =>
    let latest := fetchLatestSubscription raw
    match doCacheSet env ("subscription:" ++ latest.id) (.ofSubscription latest) (some 3600) tr with
    | (.error e, tr) => (.error e, tr)
    | (.ok _, tr) =>
      match doCacheSet env ("subscription:customer:" ++ latest.customerId)
          (.ofString latest.id) (some 3600) tr with
      | (.error e, tr) => (.error e, tr)
      | (.ok _, tr) =>
        match syncThenHandler env.sync.onSubscriptionUpdated
            (SyncCall.subscriptionUpdated latest)
            env.handlers.onSubscriptionCreated
            (HandlerCall.subscriptionCreated latest) latest tr with
        | r => r
where
  /-- Shared tail of the subscription branches: optional sync callback,
  then optional user handler, each with the fresh subscription. -/
  syncThenHandler (syncCb : Option (Subscription → Except Err Unit))
      (syncRec : SyncCall) (userCb : Option (Subscription → Except Err Unit))
      (userRec : HandlerCall) (latest : Subscription) (tr : Trace) :
      Except Err Unit × Trace :=
    match syncCb with
    | some cb =>
      match cb latest, tr.addSync syncRec with
      | .error e, tr => (.error e, tr)
      | .ok _, tr =>
        match userCb with
        | none => (.ok (), tr)
        | some h => (h latest, tr.addHandler userRec)
    | none =>
      match userCb with
      | none => (.ok (), tr)
      | some h => (h latest, tr.addHandler userRec)

/-- The `customer.subscription.updated` branch: identical cache writes to
the created branch; `sync.onSubscriptionUpdated`, then the user's
`onSubscriptionUpdated`. -/
def processSubscriptionUpdated (env : WebhookEnv) (subId : String)
    (tr : Trace) : Except Err Unit × Trace :=
  let tr := tr.addFetch (.subscription subId)
  match env.retrieveSubscription subId with
  | .error e => (.error e, tr)
  | .ok raw =>
    let latest := fetchLatestSubscription raw
    match doCacheSet env ("subscription:" ++ latest.id) (.ofSubscription latest) (some 3600) tr with
    | (.error e, tr) => (.error e, tr)
    | (.ok _, tr) =>
      match doCacheSet env ("subscription:customer:" ++ latest.customerId)
          (.ofString latest.id) (some 3600) tr with
      | (.error e, tr) => (.error e, tr)
      | (.ok _, tr) =>
        processSubscriptionCreated.syncThenHandler env.sync.onSubscriptionUpdated
          (SyncCall.subscriptionUpdated latest)
          env.handlers.onSubscriptionUpdated
          (HandlerCall.subscriptionUpdated latest) latest tr

/-- The `customer.subscription.deleted` / `customer.subscription.canceled`
branch: fetch fresh, cache 24 hours under `subscription:<id>` (kept longer
for history), call `sync.onSubscriptionCanceled`, then the user's
`onSubscriptionCanceled`. -/
def processSubscriptionCanceled (env : WebhookEnv) (subId : String)
    (tr : Trace) : Except Err Unit × Trace :=
  let tr := tr.addFetch (.subscription subId)
  match env.retrieveSubscription subId with
  | .error e => (.error e, tr)
  | .ok raw =>
    let latest := fetchLatestSubscription raw
    match doCacheSet env ("subscription:" ++ latest.id) (.ofSubscription latest) (some 86400) tr with
    | (.error e, tr) => (.error e, tr)
    | (.ok _, tr) =>
      processSubscriptionCreated.syncThenHandler env.sync.onSubscriptionCanceled
        (SyncCall.subscriptionCanceled latest)
        env.handlers.onSubscriptionCanceled
        (HandlerCall.subscriptionCanceled latest) latest tr

/-- Dispatch on the event type.  The source reads nothing of the event
except `event.type` and `(event.data as ...).id`, so the dispatcher takes
exactly those.  Unhandled types only log. -/
def processEventByType (env : WebhookEnv) (eventType dataId : String)
    (tr : Trace) : Except Err Unit × Trace :=
  if eventType = "checkout.session.completed" then
    processCheckoutCompleted env dataId tr
  else if eventType = "customer.subscription.created" then
    processSubscriptionCreated env dataId tr
  else if eventType = "customer.subscription.updated" then
    processSubscriptionUpdated env dataId tr
  else if eventType = "customer.subscription.deleted"
      ∨ eventType = "customer.subscription.canceled" then
    processSubscriptionCanceled env dataId tr
  else
    (.ok (), tr)

/-- Steps 4-6 of the handler body for a verified event. -/
def processEvent (env : WebhookEnv) (event : WebhookEvent) (tr : Trace) :
    Except Err Unit × Trace :=
  processEventByType env event.type event.data.id tr

end StripeSdk

namespace StripeSdk

/-- The JSON bodies the handler can produce (webhook.ts builds exactly
these five shapes). -/
inductive RespBody where
  /-- 405 body: `error: 'Method not allowed'`. -/
  | methodNotAllowed
  /-- 401 body: `error: 'Missing signature', message: 'stripe-signature
  header is required'`. -/
  | missingSignature
  /-- 401 body for a `WebhookError`: `error: <code>, message: <message>`. -/
  | webhookFail (code message : String)
  /-- 200 body: `received: true`. -/
  | ack
  /-- 200 body of the outer catch for a non-`WebhookError`:
  `received: true, error: 'Handler error logged'`. -/
  | ackLogged
deriving DecidableEq

/-- The `received` field of a response body, when present. -/
def RespBody.received : RespBody → Option Bool
  | .ack => some true
  | .ackLogged => some true
  | _ => none

/-- An HTTP response of the webhook route. -/
structure WebResponse where
  status : Int
  body : RespBody
deriving DecidableEq

/-- The outer `catch` of the handler: a `WebhookError` is reported as 401
with its code and message; any other error is logged and acknowledged with
200 (`received: true, error: 'Handler error logged'`). -/
def catchResp (e : Err) : WebResponse :=
  match e with
  | .webhook message code => ⟨401, .webhookFail code message⟩
  | _ => ⟨200, .ackLogged⟩

/-- The inbound request: HTTP method, raw text body, and the optional
`stripe-signature` header. -/
structure WebRequest where
  method : String
  body : String
  signatureHeader : Option String
deriving DecidableEq

/-- Steps 4-7 of the handler, then the outer catch: `loadStripeConfig()`,
the event processing, and the acknowledgement. -/
def runVerified (env : WebhookEnv) (event : WebhookEvent) (tr : Trace) :
    WebResponse × Trace :=
  match env.loadConfig with
  | .error e => (catchResp e, tr)
  | .ok _ =>
    match processEvent env event tr with
    | (.ok _, tr) => (⟨200, .ack⟩, tr)
    | (.error e, tr) => (catchResp e, tr)

/-- webhook.ts `createWebhookHandler`, applied to one request.  Non-POST
requests get 405 before anything else; a missing `stripe-signature` header
gets 401 before any provider or cache call; a failed verification gets the
outer-catch treatment (the inner catch returns 401 for a `WebhookError`
and rethrows anything else into the outer catch, which is exactly
`catchResp`); a verified event is processed with the
always-acknowledge policy. -/
def createWebhookHandler (env : WebhookEnv) (req : WebRequest) :
    WebResponse × Trace :=
  if req.method ≠ "POST" then (⟨405, .methodNotAllowed⟩, Trace.empty)
  else
    match req.signatureHeader with
    | none => (⟨401, .missingSignature⟩, Trace.empty)
    | some signature =>
      let tr := Trace.empty.addVerify (req.body, signature)
      match env.verifyWebhook req.body signature with
      | .error e => (catchResp e, tr)
      | .ok event => runVerified env event tr

end StripeSdk

namespace StripeSdk

/-- An environment whose collaborators are inert: verification fails with a
generic error, retrieves fail, the cache accepts writes, nothing is
configured.  Used to instantiate witnesses. -/
def envTrivial : WebhookEnv :=
  { verifyWebhook := fun _ _ => .error (.other "unused")
    loadConfig := .ok ()
    retrieveCheckoutSession := fun _ => .error (.other "unused")
    retrieveSubscription := fun _ => .error (.other "unused")
    retrieveCustomer := fun _ => .error (.other "unused")
    cacheSet := fun _ _ _ => .ok ()
    sync := SyncAdapter.none
    handlers := WebhookEventHandlers.none }

/-- A cache adapter whose `set` always succeeds. -/
def cacheAlwaysOk (env : WebhookEnv) : Prop :=
  ∀ k v ttl, env.cacheSet k v ttl = .ok ()

/-- C2: a POST webhook request without a `stripe-signature` header is
answered 401 with the missing-signature body, and the run performs no
verification, no Stripe fetch, no cache operation, no sync call and no
handler call: its trace is empty. -/
theorem webhook_missing_signature (env : WebhookEnv) (req : WebRequest)
    (hm : req.method = "POST") (hs : req.signatureHeader = none) :
    createWebhookHandler env req = (⟨401, .missingSignature⟩, Trace.empty) ∧
      (createWebhookHandler env req).2.verifyCalls = []
      ∧ (createWebhookHandler env req).2.fetches = []
      ∧ (createWebhookHandler env req).2.cacheOps = []
      ∧ (createWebhookHandler env req).2.syncCalls = []
      ∧ (createWebhookHandler env req).2.handlerCalls = [] := by
  have h : createWebhookHandler env req = (⟨401, .missingSignature⟩, Trace.empty) := by
    simp [createWebhookHandler, hm, hs]
  exact ⟨h, by rw [h]; rfl, by rw [h]; rfl, by rw [h]; rfl, by rw [h]; rfl, by rw [h]; rfl⟩

/-- Witness for `webhook_missing_signature`: the concrete inert environment
and a header-less POST. -/
theorem webhook_missing_signature_witness :
    createWebhookHandler envTrivial ⟨"POST", "payload", none⟩ =
      (⟨401, .missingSignature⟩, Trace.empty) :=
  (webhook_missing_signature envTrivial ⟨"POST", "payload", none⟩ rfl rfl).1

end StripeSdk

namespace StripeSdk

/-- C6: a valid-signature POST of type `customer.subscription.deleted` (or
`customer.subscription.canceled`) whose payload carries subscription id `S`
re-fetches `S` through the facade, writes the fetched subscription to cache
key `subscription:<S>` with TTL 86400 seconds, invokes the configured
`onSubscriptionCanceled` callbacks exactly once with that fetched
subscription, and responds 200 with `received: true`. -/
theorem webhook_subscription_canceled_pipeline
    (env : WebhookEnv) (req : WebRequest) (sig : String) (ev : WebhookEvent)
    (raw : RawSubscription) (cb h : Subscription → Except Err Unit)
    (hm : req.method = "POST") (hs : req.signatureHeader = some sig)
    (hv : env.verifyWebhook req.body sig = .ok ev)
    (ht : ev.type = "customer.subscription.deleted"
      ∨ ev.type = "customer.subscription.canceled")
    (hcfg : env.loadConfig = .ok ())
    (hret : env.retrieveSubscription ev.data.id = .ok raw)
    (hid : raw.id = ev.data.id)
    (hcache : cacheAlwaysOk env)
    (hsync : env.sync.onSubscriptionCanceled = some cb)
    (hcb : cb (fetchLatestSubscription raw) = .ok ())
    (hh : env.handlers.onSubscriptionCanceled = some h)
    (hhok : h (fetchLatestSubscription raw) = .ok ()) :
    createWebhookHandler env req =
      (⟨200, .ack⟩,
       ⟨[(req.body, sig)],
        [.subscription ev.data.id],
        [.set ("subscription:" ++ ev.data.id)
          (.ofSubscription (fetchLatestSubscription raw)) (some 86400)],
        [.subscriptionCanceled (fetchLatestSubscription raw)],
        [.subscriptionCanceled (fetchLatestSubscription raw)]⟩) := by
  have hlid : (fetchLatestSubscription raw).id = ev.data.id := by
    rw [fetchLatestSubscription]
    exact hid
  have hc : ∀ k v ttl, env.cacheSet k v ttl = .ok () := hcache
  have hty : ∀ tr, processEventByType env ev.type ev.data.id tr =
      processSubscriptionCanceled env ev.data.id tr := by
    intro tr
    rcases ht with ht | ht <;> rw [ht] <;> simp [processEventByType]
  simp only [createWebhookHandler, hm, hs, hv, runVerified, hcfg, processEvent, hty,
    processSubscriptionCanceled, hret, doCacheSet, hc,
    processSubscriptionCreated.syncThenHandler, hsync, hcb, hh, hhok, hlid,
    Trace.empty, Trace.addVerify, Trace.addFetch, Trace.addCacheOp, Trace.addSync,
    Trace.addHandler]
  simp

/-- Witness for `webhook_subscription_canceled_pipeline`: a concrete
environment whose verification yields a `customer.subscription.deleted`
event for `sub_1` and whose facade returns a canceled subscription. -/
theorem webhook_subscription_canceled_pipeline_witness :
    createWebhookHandler
      { verifyWebhook := fun _ _ =>
          .ok ⟨"evt_1", "customer.subscription.deleted", ⟨"sub_1", "active"⟩, 0⟩
        loadConfig := .ok ()
        retrieveCheckoutSession := fun _ => .error (.other "unused")
        retrieveSubscription := fun i =>
          .ok ⟨i, some (.byId "cus_1"), "canceled", 200, 100, true, [], none, 0⟩
        retrieveCustomer := fun _ => .error (.other "unused")
        cacheSet := fun _ _ _ => .ok ()
        sync := ⟨Option.none, Option.none, some (fun _ => .ok ())⟩
        handlers := ⟨Option.none, Option.none, Option.none, some (fun _ => .ok ())⟩ }
      ⟨"POST", "payload", some "sig"⟩ =
      (⟨200, .ack⟩,
       ⟨[("payload", "sig")],
        [.subscription "sub_1"],
        [.set "subscription:sub_1"
          (.ofSubscription (fetchLatestSubscription
            ⟨"sub_1", some (.byId "cus_1"), "canceled", 200, 100, true, [], none, 0⟩))
          (some 86400)],
        [.subscriptionCanceled (fetchLatestSubscription
          ⟨"sub_1", some (.byId "cus_1"), "canceled", 200, 100, true, [], none, 0⟩)],
        [.subscriptionCanceled (fetchLatestSubscription
          ⟨"sub_1", some (.byId "cus_1"), "canceled", 200, 100, true, [], none, 0⟩)]⟩) := by
  exact webhook_subscription_canceled_pipeline _ _ "sig"
    ⟨"evt_1", "customer.subscription.deleted", ⟨"sub_1", "active"⟩, 0⟩
    ⟨"sub_1", some (.byId "cus_1"), "canceled", 200, 100, true, [], none, 0⟩
    (fun _ => .ok ()) (fun _ => .ok ())
    rfl rfl rfl (Or.inl rfl) rfl rfl rfl (fun _ _ _ => rfl) rfl rfl rfl rfl

end StripeSdk

namespace StripeSdk

/-- The cache writes the checkout branch performs for the re-fetched
customer: always `customer:<id>` (24h); `customer:email:<email>` when the
email is truthy; `customer:userId:<userId>` (storing the id string) when
the metadata carries a truthy userId. -/
def customerCacheWrites (c : Customer) : List CacheOp :=
  [.set ("customer:" ++ c.id) (.ofCustomer c) (some 86400)]
    ++ (match truthyStr (some c.email) with
        | some email => [.set ("customer:email:" ++ email) (.ofCustomer c) (some 86400)]
        | none => [])
    ++ (match truthyStr (c.metadata.bind (fun m => metaLookup m "userId")) with
        | some uid => [.set ("customer:userId:" ++ uid) (.ofString c.id) (some 86400)]
        | none => [])

/-- Run equation for the created branch when every step succeeds up to the
user handler (whose result is passed through). -/
theorem procSubCreated_run (env : WebhookEnv) (i : String) (raw : RawSubscription)
    (cb h : Subscription → Except Err Unit) (tr : Trace)
    (hret : env.retrieveSubscription i = .ok raw)
    (hc : ∀ k v ttl, env.cacheSet k v ttl = .ok ())
    (hsync : env.sync.onSubscriptionUpdated = some cb)
    (hcb : cb (fetchLatestSubscription raw) = .ok ())
    (hh : env.handlers.onSubscriptionCreated = some h) :
    processSubscriptionCreated env i tr =
      (h (fetchLatestSubscription raw),
       ⟨tr.verifyCalls, tr.fetches ++ [.subscription i],
        tr.cacheOps ++
          [.set ("subscription:" ++ (fetchLatestSubscription raw).id)
            (.ofSubscription (fetchLatestSubscription raw)) (some 3600),
           .set ("subscription:customer:" ++ (fetchLatestSubscription raw).customerId)
            (.ofString (fetchLatestSubscription raw).id) (some 3600)],
        tr.syncCalls ++ [.subscriptionUpdated (fetchLatestSubscription raw)],
        tr.handlerCalls ++ [.subscriptionCreated (fetchLatestSubscription raw)]⟩) := by
  simp [processSubscriptionCreated, doCacheSet, hret, hc,
    processSubscriptionCreated.syncThenHandler, hsync, hcb, hh,
    Trace.addFetch, Trace.addCacheOp, Trace.addSync, Trace.addHandler]

/-- Run equation for the updated branch when every step succeeds up to the
user handler. -/
theorem procSubUpdated_run (env : WebhookEnv) (i : String) (raw : RawSubscription)
    (cb h : Subscription → Except Err Unit) (tr : Trace)
    (hret : env.retrieveSubscription i = .ok raw)
    (hc : ∀ k v ttl, env.cacheSet k v ttl = .ok ())
    (hsync : env.sync.onSubscriptionUpdated = some cb)
    (hcb : cb (fetchLatestSubscription raw) = .ok ())
    (hh : env.handlers.onSubscriptionUpdated = some h) :
    processSubscriptionUpdated env i tr =
      (h (fetchLatestSubscription raw),
       ⟨tr.verifyCalls, tr.fetches ++ [.subscription i],
        tr.cacheOps ++
          [.set ("subscription:" ++ (fetchLatestSubscription raw).id)
            (.ofSubscription (fetchLatestSubscription raw)) (some 3600),
           .set ("subscription:customer:" ++ (fetchLatestSubscription raw).customerId)
            (.ofString (fetchLatestSubscription raw).id) (some 3600)],
        tr.syncCalls ++ [.subscriptionUpdated (fetchLatestSubscription raw)],
        tr.handlerCalls ++ [.subscriptionUpdated (fetchLatestSubscription raw)]⟩) := by
  simp [processSubscriptionUpdated, doCacheSet, hret, hc,
    processSubscriptionCreated.syncThenHandler, hsync, hcb, hh,
    Trace.addFetch, Trace.addCacheOp, Trace.addSync, Trace.addHandler]

/-- Run equation for the canceled branch when every step succeeds up to the
user handler. -/
theorem procSubCanceled_run (env : WebhookEnv) (i : String) (raw : RawSubscription)
    (cb h : Subscription → Except Err Unit) (tr : Trace)
    (hret : env.retrieveSubscription i = .ok raw)
    (hc : ∀ k v ttl, env.cacheSet k v ttl = .ok ())
    (hsync : env.sync.onSubscriptionCanceled = some cb)
    (hcb : cb (fetchLatestSubscription raw) = .ok ())
    (hh : env.handlers.onSubscriptionCanceled = some h) :
    processSubscriptionCanceled env i tr =
      (h (fetchLatestSubscription raw),
       ⟨tr.verifyCalls, tr.fetches ++ [.subscription i],
        tr.cacheOps ++
          [.set ("subscription:" ++ (fetchLatestSubscription raw).id)
            (.ofSubscription (fetchLatestSubscription raw)) (some 86400)],
        tr.syncCalls ++ [.subscriptionCanceled (fetchLatestSubscription raw)],
        tr.handlerCalls ++ [.subscriptionCanceled (fetchLatestSubscription raw)]⟩) := by
  simp [processSubscriptionCanceled, doCacheSet, hret, hc,
    processSubscriptionCreated.syncThenHandler, hsync, hcb, hh,
    Trace.addFetch, Trace.addCacheOp, Trace.addSync, Trace.addHandler]

/-- Run equation for the checkout branch when the fresh session has a
truthy customer id and every step succeeds up to the user handler. -/
theorem procCheckout_run (env : WebhookEnv) (i cid : String)
    (raw : RawCheckoutSession) (rawC : RawCustomer) (c : Customer)
    (cb : Customer → Except Err Unit) (h : CheckoutSession → Except Err Unit)
    (tr : Trace)
    (hret : env.retrieveCheckoutSession i = .ok raw)
    (hcid : truthyStr (fetchLatestCheckoutSession raw).customerId = some cid)
    (hrc : env.retrieveCustomer cid = .ok rawC)
    (hfc : fetchLatestCustomer rawC = .ok c)
    (hc : ∀ k v ttl, env.cacheSet k v ttl = .ok ())
    (hsync : env.sync.onCustomerCreated = some cb)
    (hcb : cb c = .ok ())
    (hh : env.handlers.onCheckoutComplete = some h) :
    processCheckoutCompleted env i tr =
      (h (fetchLatestCheckoutSession raw),
       ⟨tr.verifyCalls,
        tr.fetches ++ [.checkoutSession i, .customer cid, .customer cid],
        tr.cacheOps ++
          [.set ("checkout:" ++ (fetchLatestCheckoutSession raw).id)
            (.ofSession (fetchLatestCheckoutSession raw)) (some 3600)]
          ++ customerCacheWrites c,
        tr.syncCalls ++ [.customerCreated c],
        tr.handlerCalls ++ [.checkoutComplete (fetchLatestCheckoutSession raw)]⟩) := by
  cases he : truthyStr (some c.email) <;>
    cases hu : truthyStr (c.metadata.bind (fun m => metaLookup m "userId")) <;>
      simp [processCheckoutCompleted, cacheCustomerOfSession,
        cacheCustomerOfSession.cacheUserIdOfCustomer, syncCustomerOfSession,
        doFetchCustomer, doCacheSet, customerCacheWrites, hret, hcid, hrc, hfc,
        hc, hsync, hcb, hh, he, hu,
        Trace.addFetch, Trace.addCacheOp, Trace.addSync, Trace.addHandler]

end StripeSdk

namespace StripeSdk

/-- C1: the verified pipeline depends on the event only through its type
and the id extracted from the embedded payload (first conjunct: two events
agreeing on those — with arbitrary other payload fields, in particular a
different claimed status — produce identical responses and identical
traces), and for every handled type the entity written to the cache and
handed to the sync adapter and the user handler is exactly the mapped
result of the facade retrieve for that extracted id (remaining conjuncts:
the run equations of the four branches, whose cache values and call
arguments are all built from the retrieve result alone). -/
theorem webhook_never_trusts_payload :
    (∀ (env : WebhookEnv) (ev ev' : WebhookEvent) (tr : Trace),
      ev.type = ev'.type → ev.data.id = ev'.data.id →
      runVerified env ev tr = runVerified env ev' tr)
    ∧ (∀ (env : WebhookEnv) (i cid : String) (raw : RawCheckoutSession)
        (rawC : RawCustomer) (c : Customer) (cb : Customer → Except Err Unit)
        (h : CheckoutSession → Except Err Unit) (tr : Trace),
        env.retrieveCheckoutSession i = .ok raw →
        truthyStr (fetchLatestCheckoutSession raw).customerId = some cid →
        env.retrieveCustomer cid = .ok rawC →
        fetchLatestCustomer rawC = .ok c →
        cacheAlwaysOk env →
        env.sync.onCustomerCreated = some cb → cb c = .ok () →
        env.handlers.onCheckoutComplete = some h →
        processCheckoutCompleted env i tr =
          (h (fetchLatestCheckoutSession raw),
           ⟨tr.verifyCalls,
            tr.fetches ++ [.checkoutSession i, .customer cid, .customer cid],
            tr.cacheOps ++
              [.set ("checkout:" ++ (fetchLatestCheckoutSession raw).id)
                (.ofSession (fetchLatestCheckoutSession raw)) (some 3600)]
              ++ customerCacheWrites c,
            tr.syncCalls ++ [.customerCreated c],
            tr.handlerCalls ++ [.checkoutComplete (fetchLatestCheckoutSession raw)]⟩))
    ∧ (∀ (env : WebhookEnv) (i : String) (raw : RawSubscription)
        (cb h : Subscription → Except Err Unit) (tr : Trace),
        env.retrieveSubscription i = .ok raw →
        cacheAlwaysOk env →
        env.sync.onSubscriptionUpdated = some cb →
        cb (fetchLatestSubscription raw) = .ok () →
        env.handlers.onSubscriptionCreated = some h →
        processSubscriptionCreated env i tr =
          (h (fetchLatestSubscription raw),
           ⟨tr.verifyCalls, tr.fetches ++ [.subscription i],
            tr.cacheOps ++
              [.set ("subscription:" ++ (fetchLatestSubscription raw).id)
                (.ofSubscription (fetchLatestSubscription raw)) (some 3600),
               .set ("subscription:customer:" ++ (fetchLatestSubscription raw).customerId)
                (.ofString (fetchLatestSubscription raw).id) (some 3600)],
            tr.syncCalls ++ [.subscriptionUpdated (fetchLatestSubscription raw)],
            tr.handlerCalls ++ [.subscriptionCreated (fetchLatestSubscription raw)]⟩))
    ∧ (∀ (env : WebhookEnv) (i : String) (raw : RawSubscription)
        (cb h : Subscription → Except Err Unit) (tr : Trace),
        env.retrieveSubscription i = .ok raw →
        cacheAlwaysOk env →
        env.sync.onSubscriptionUpdated = some cb →
        cb (fetchLatestSubscription raw) = .ok () →
        env.handlers.onSubscriptionUpdated = some h →
        processSubscriptionUpdated env i tr =
          (h (fetchLatestSubscription raw),
           ⟨tr.verifyCalls, tr.fetches ++ [.subscription i],
            tr.cacheOps ++
              [.set ("subscription:" ++ (fetchLatestSubscription raw).id)
                (.ofSubscription (fetchLatestSubscription raw)) (some 3600),
               .set ("subscription:customer:" ++ (fetchLatestSubscription raw).customerId)
                (.ofString (fetchLatestSubscription raw).id) (some 3600)],
            tr.syncCalls ++ [.subscriptionUpdated (fetchLatestSubscription raw)],
            tr.handlerCalls ++ [.subscriptionUpdated (fetchLatestSubscription raw)]⟩))
    ∧ (∀ (env : WebhookEnv) (i : String) (raw : RawSubscription)
        (cb h : Subscription → Except Err Unit) (tr : Trace),
        env.retrieveSubscription i = .ok raw →
        cacheAlwaysOk env →
        env.sync.onSubscriptionCanceled = some cb →
        cb (fetchLatestSubscription raw) = .ok () →
        env.handlers.onSubscriptionCanceled = some h →
        processSubscriptionCanceled env i tr =
          (h (fetchLatestSubscription raw),
           ⟨tr.verifyCalls, tr.fetches ++ [.subscription i],
            tr.cacheOps ++
              [.set ("subscription:" ++ (fetchLatestSubscription raw).id)
                (.ofSubscription (fetchLatestSubscription raw)) (some 86400)],
            tr.syncCalls ++ [.subscriptionCanceled (fetchLatestSubscription raw)],
            tr.handlerCalls ++ [.subscriptionCanceled (fetchLatestSubscription raw)]⟩)) := by
  refine ⟨?_, ?_, ?_, ?_, ?_⟩
  · intro env ev ev' tr htype hid
    simp only [runVerified, processEvent, htype, hid]
  · intro env i cid raw rawC c cb h tr hret hcid hrc hfc hc hsync hcb hh
    exact procCheckout_run env i cid raw rawC c cb h tr hret hcid hrc hfc hc hsync hcb hh
  · intro env i raw cb h tr hret hc hsync hcb hh
    exact procSubCreated_run env i raw cb h tr hret hc hsync hcb hh
  · intro env i raw cb h tr hret hc hsync hcb hh
    exact procSubUpdated_run env i raw cb h tr hret hc hsync hcb hh
  · intro env i raw cb h tr hret hc hsync hcb hh
    exact procSubCanceled_run env i raw cb h tr hret hc hsync hcb hh

end StripeSdk

namespace StripeSdk

/-- Concrete environment for the `webhook_never_trusts_payload` witness:
the facade returns a fixed active subscription and both a sync callback
and a user handler for the created kind are configured. -/
def envW1 : WebhookEnv :=
  { envTrivial with
    retrieveSubscription := fun i =>
      .ok ⟨i, some (.byId "cus_9"), "active", 2, 1, false, [], none, 0⟩
    sync := ⟨Option.none, some (fun _ => .ok ()), Option.none⟩
    handlers := ⟨Option.none, some (fun _ => .ok ()), Option.none, Option.none⟩ }

/-- Witness for `webhook_never_trusts_payload`: two events with the same
type and payload id but different claimed statuses run identically, and
the created-branch run equation holds at a concrete input. -/
theorem webhook_never_trusts_payload_witness :
    runVerified envTrivial ⟨"evt_a", "some.type", ⟨"id_1", "open"⟩, 0⟩ Trace.empty =
      runVerified envTrivial ⟨"evt_b", "some.type", ⟨"id_1", "complete"⟩, 5⟩ Trace.empty
    ∧ processSubscriptionCreated envW1 "sub_7" Trace.empty =
      (.ok (),
       ⟨[], [.subscription "sub_7"],
        [.set ("subscription:" ++ (fetchLatestSubscription
            ⟨"sub_7", some (.byId "cus_9"), "active", 2, 1, false, [], none, 0⟩).id)
          (.ofSubscription (fetchLatestSubscription
            ⟨"sub_7", some (.byId "cus_9"), "active", 2, 1, false, [], none, 0⟩))
          (some 3600),
         .set ("subscription:customer:" ++ (fetchLatestSubscription
            ⟨"sub_7", some (.byId "cus_9"), "active", 2, 1, false, [], none, 0⟩).customerId)
          (.ofString (fetchLatestSubscription
            ⟨"sub_7", some (.byId "cus_9"), "active", 2, 1, false, [], none, 0⟩).id)
          (some 3600)],
        [.subscriptionUpdated (fetchLatestSubscription
          ⟨"sub_7", some (.byId "cus_9"), "active", 2, 1, false, [], none, 0⟩)],
        [.subscriptionCreated (fetchLatestSubscription
          ⟨"sub_7", some (.byId "cus_9"), "active", 2, 1, false, [], none, 0⟩)]⟩) := by
  constructor
  · exact webhook_never_trusts_payload.1 envTrivial
      ⟨"evt_a", "some.type", ⟨"id_1", "open"⟩, 0⟩
      ⟨"evt_b", "some.type", ⟨"id_1", "complete"⟩, 5⟩ Trace.empty rfl rfl
  · exact webhook_never_trusts_payload.2.2.1 envW1 "sub_7"
      ⟨"sub_7", some (.byId "cus_9"), "active", 2, 1, false, [], none, 0⟩
      (fun _ => .ok ()) (fun _ => .ok ()) Trace.empty
      rfl (fun _ _ _ => rfl) rfl rfl rfl

end StripeSdk

namespace StripeSdk

/-- Every error the pluggable and upstream collaborators can produce is a
non-`WebhookError` — the usual situation, since in the source only
signature verification constructs `WebhookError`s. -/
def envNonWebhookErrors (env : WebhookEnv) : Prop :=
  (∀ e, env.loadConfig = .error e → e.isWebhookError = false)
  ∧ (∀ i e, env.retrieveCheckoutSession i = .error e → e.isWebhookError = false)
  ∧ (∀ i e, env.retrieveSubscription i = .error e → e.isWebhookError = false)
  ∧ (∀ i e, env.retrieveCustomer i = .error e → e.isWebhookError = false)
  ∧ (∀ k v ttl e, env.cacheSet k v ttl = .error e → e.isWebhookError = false)
  ∧ (∀ cb c e, env.sync.onCustomerCreated = some cb →
      cb c = .error e → e.isWebhookError = false)
  ∧ (∀ cb s e, env.sync.onSubscriptionUpdated = some cb →
      cb s = .error e → e.isWebhookError = false)
  ∧ (∀ cb s e, env.sync.onSubscriptionCanceled = some cb →
      cb s = .error e → e.isWebhookError = false)
  ∧ (∀ cb s e, env.handlers.onCheckoutComplete = some cb →
      cb s = .error e → e.isWebhookError = false)
  ∧ (∀ cb s e, env.handlers.onSubscriptionCreated = some cb →
      cb s = .error e → e.isWebhookError = false)
  ∧ (∀ cb s e, env.handlers.onSubscriptionUpdated = some cb →
      cb s = .error e → e.isWebhookError = false)
  ∧ (∀ cb s e, env.handlers.onSubscriptionCanceled = some cb →
      cb s = .error e → e.isWebhookError = false)

theorem fetchLatestCustomer_err (raw : RawCustomer) (e : Err)
    (h : fetchLatestCustomer raw = .error e) : e.isWebhookError = false := by
  by_cases hd : raw.deleted
  · rw [fetchLatestCustomer, if_pos hd] at h
    injection h with h1
    rw [← h1]
    rfl
  · rw [fetchLatestCustomer, if_neg hd] at h
    exact absurd h (by simp)

theorem syncThenHandler_err (syncCb userCb : Option (Subscription → Except Err Unit))
    (syncRec : SyncCall) (userRec : HandlerCall) (latest : Subscription) (tr : Trace)
    (Hs : ∀ cb e, syncCb = some cb → cb latest = .error e → e.isWebhookError = false)
    (Hu : ∀ cb e, userCb = some cb → cb latest = .error e → e.isWebhookError = false) :
    ∀ e tr', processSubscriptionCreated.syncThenHandler syncCb syncRec userCb userRec latest tr
      = (.error e, tr') → e.isWebhookError = false := by
  intro e tr' h
  unfold processSubscriptionCreated.syncThenHandler at h
  repeat' split at h
  all_goals try simp only [Prod.mk.injEq] at h
  all_goals
    first
    | exact Except.noConfusion h.1
    | exact Hu _ _ rfl h.1
    | (injection h.1 with h1
       subst h1
       exact Hs _ _ rfl (by assumption))

theorem doFetchCustomer_err (env : WebhookEnv) (cid : String) (tr : Trace)
    (H4 : ∀ i e, env.retrieveCustomer i = .error e → e.isWebhookError = false) :
    ∀ e tr', doFetchCustomer env cid tr = (.error e, tr') →
      e.isWebhookError = false := by
  intro e tr' h
  unfold doFetchCustomer at h
  repeat' split at h
  all_goals try simp only [Prod.mk.injEq] at h
  all_goals
    first
    | exact fetchLatestCustomer_err _ _ h.1
    | (injection h.1 with h1
       subst h1
       exact H4 _ _ (by assumption))

theorem cacheCustomerOfSession_err (env : WebhookEnv) (latest : CheckoutSession)
    (tr : Trace) (H : envNonWebhookErrors env) :
    ∀ e tr', cacheCustomerOfSession env latest tr = (.error e, tr') →
      e.isWebhookError = false := by
  obtain ⟨H1, H2, H3, H4, H5, H6, H7, H8, H9, H10, H11, H12⟩ := H
  intro e tr' h
  unfold cacheCustomerOfSession at h
  simp only [cacheCustomerOfSession.cacheUserIdOfCustomer, doCacheSet] at h
  repeat' split at h
  all_goals try simp only [Prod.mk.injEq] at h
  all_goals
    first
    | exact Except.noConfusion h.1
    | exact H5 _ _ _ _ h.1
    | (injection h.1 with h1
       subst h1
       first
       | exact doFetchCustomer_err env _ _ H4 _ _ (by assumption)
       | exact H5 _ _ _ _ (by
           rename_i heq
           simp only [Prod.mk.injEq] at heq
           exact heq.1))

theorem syncCustomerOfSession_err (env : WebhookEnv) (latest : CheckoutSession)
    (tr : Trace) (H : envNonWebhookErrors env) :
    ∀ e tr', syncCustomerOfSession env latest tr = (.error e, tr') →
      e.isWebhookError = false := by
  obtain ⟨H1, H2, H3, H4, H5, H6, H7, H8, H9, H10, H11, H12⟩ := H
  intro e tr' h
  unfold syncCustomerOfSession at h
  repeat' split at h
  all_goals try simp only [Prod.mk.injEq] at h
  all_goals
    first
    | exact Except.noConfusion h.1
    | exact H6 _ _ _ (by assumption) h.1
    | (injection h.1 with h1
       subst h1
       exact doFetchCustomer_err env _ _ H4 _ _ (by assumption))

theorem procCheckout_err (env : WebhookEnv) (i : String) (tr : Trace)
    (H : envNonWebhookErrors env) :
    ∀ e tr', processCheckoutCompleted env i tr = (.error e, tr') →
      e.isWebhookError = false := by
  intro e tr' h
  unfold processCheckoutCompleted at h
  simp only [doCacheSet] at h
  repeat' split at h
  all_goals try simp only [Prod.mk.injEq] at h
  all_goals
    first
    | exact Except.noConfusion h.1
    | exact H.2.2.2.2.2.2.2.2.1 _ _ _ (by assumption) h.1
    | exact H.2.2.2.2.1 _ _ _ _ h.1
    | (injection h.1 with h1
       subst h1
       first
       | exact H.2.1 _ _ (by assumption)
       | exact cacheCustomerOfSession_err env _ _ H _ _ (by assumption)
       | exact syncCustomerOfSession_err env _ _ H _ _ (by assumption)
       | exact H.2.2.2.2.1 _ _ _ _ (by
           rename_i heq
           simp only [Prod.mk.injEq] at heq
           exact heq.1))

theorem procSubCreated_err (env : WebhookEnv) (i : String) (tr : Trace)
    (H : envNonWebhookErrors env) :
    ∀ e tr', processSubscriptionCreated env i tr = (.error e, tr') →
      e.isWebhookError = false := by
  intro e tr' h
  unfold processSubscriptionCreated at h
  simp only [doCacheSet] at h
  repeat' split at h
  all_goals try simp only [Prod.mk.injEq] at h
  all_goals
    first
    | exact Except.noConfusion h.1
    | exact H.2.2.2.2.1 _ _ _ _ h.1
    | (injection h.1 with h1
       subst h1
       first
       | exact H.2.2.1 _ _ (by assumption)
       | exact H.2.2.2.2.1 _ _ _ _ (by
           rename_i heq
           simp only [Prod.mk.injEq] at heq
           exact heq.1))
    | exact syncThenHandler_err _ _ _ _ _ _
        (fun cb e2 hcb hres => H.2.2.2.2.2.2.1 cb _ e2 hcb hres)
        (fun cb e2 hcb hres => H.2.2.2.2.2.2.2.2.2.1 cb _ e2 hcb hres) _ _ h

theorem procSubUpdated_err (env : WebhookEnv) (i : String) (tr : Trace)
    (H : envNonWebhookErrors env) :
    ∀ e tr', processSubscriptionUpdated env i tr = (.error e, tr') →
      e.isWebhookError = false := by
  intro e tr' h
  unfold processSubscriptionUpdated at h
  simp only [doCacheSet] at h
  repeat' split at h
  all_goals try simp only [Prod.mk.injEq] at h
  all_goals
    first
    | exact Except.noConfusion h.1
    | exact H.2.2.2.2.1 _ _ _ _ h.1
    | (injection h.1 with h1
       subst h1
       first
       | exact H.2.2.1 _ _ (by assumption)
       | exact H.2.2.2.2.1 _ _ _ _ (by
           rename_i heq
           simp only [Prod.mk.injEq] at heq
           exact heq.1))
    | exact syncThenHandler_err _ _ _ _ _ _
        (fun cb e2 hcb hres => H.2.2.2.2.2.2.1 cb _ e2 hcb hres)
        (fun cb e2 hcb hres => H.2.2.2.2.2.2.2.2.2.2.1 cb _ e2 hcb hres) _ _ h

theorem procSubCanceled_err (env : WebhookEnv) (i : String) (tr : Trace)
    (H : envNonWebhookErrors env) :
    ∀ e tr', processSubscriptionCanceled env i tr = (.error e, tr') →
      e.isWebhookError = false := by
  intro e tr' h
  unfold processSubscriptionCanceled at h
  simp only [doCacheSet] at h
  repeat' split at h
  all_goals try simp only [Prod.mk.injEq] at h
  all_goals
    first
    | exact Except.noConfusion h.1
    | exact H.2.2.2.2.1 _ _ _ _ h.1
    | (injection h.1 with h1
       subst h1
       first
       | exact H.2.2.1 _ _ (by assumption)
       | exact H.2.2.2.2.1 _ _ _ _ (by
           rename_i heq
           simp only [Prod.mk.injEq] at heq
           exact heq.1))
    | exact syncThenHandler_err _ _ _ _ _ _
        (fun cb e2 hcb hres => H.2.2.2.2.2.2.2.1 cb _ e2 hcb hres)
        (fun cb e2 hcb hres => H.2.2.2.2.2.2.2.2.2.2.2 cb _ e2 hcb hres) _ _ h

theorem processEventByType_err (env : WebhookEnv) (ty i : String) (tr : Trace)
    (H : envNonWebhookErrors env) :
    ∀ e tr', processEventByType env ty i tr = (.error e, tr') →
      e.isWebhookError = false := by
  intro e tr' h
  unfold processEventByType at h
  repeat' split at h
  all_goals
    first
    | exact procCheckout_err env i tr H e tr' h
    | exact procSubCreated_err env i tr H e tr' h
    | exact procSubUpdated_err env i tr H e tr' h
    | exact procSubCanceled_err env i tr H e tr' h
    | exact absurd h (by simp)

/-- A non-`WebhookError` reaching the outer catch produces the 200
acknowledgement with the informational error field. -/
theorem catchResp_nonWebhook (e : Err) (h : e.isWebhookError = false) :
    catchResp e = ⟨200, .ackLogged⟩ := by
  cases e
  · exact absurd h (by simp [Err.isWebhookError])
  all_goals rfl

theorem runVerified_acks (env : WebhookEnv) (ev : WebhookEvent) (tr : Trace)
    (H : envNonWebhookErrors env) :
    (runVerified env ev tr).1.status = 200 ∧
      (runVerified env ev tr).1.body.received = some true := by
  unfold runVerified
  cases hc : env.loadConfig with
  | error e =>
    simp [catchResp_nonWebhook e (H.1 e hc), RespBody.received]
  | ok u =>
    rcases hp : processEvent env ev tr with ⟨r, tr2⟩
    cases r with
    | ok _ => simp [hp, RespBody.received]
    | error e =>
      have he : e.isWebhookError = false :=
        processEventByType_err env ev.type ev.data.id tr H e tr2
          (by simpa [processEvent] using hp)
      simp [hp, catchResp_nonWebhook e he, RespBody.received]

end StripeSdk

namespace StripeSdk

/-- C3 (amended): once signature verification has succeeded, as long as no
collaborator or handler throws a `WebhookError` instance, the pipeline
responds with status 200 and a body whose `received` field is true — in
particular a throwing or rejecting user handler does not change the
success acknowledgement. -/
theorem webhook_acks_after_verification (env : WebhookEnv) (req : WebRequest)
    (sig : String) (ev : WebhookEvent)
    (hm : req.method = "POST") (hs : req.signatureHeader = some sig)
    (hv : env.verifyWebhook req.body sig = .ok ev)
    (H : envNonWebhookErrors env) :
    (createWebhookHandler env req).1.status = 200 ∧
      (createWebhookHandler env req).1.body.received = some true := by
  have h : createWebhookHandler env req =
      runVerified env ev (Trace.empty.addVerify (req.body, sig)) := by
    simp [createWebhookHandler, hm, hs, hv]
  rw [h]
  exact runVerified_acks env ev _ H

/-- Concrete environment for the C3 counterexample: verification succeeds
for a checkout event whose session has no customer, and the configured
`onCheckoutComplete` user handler throws a `WebhookError` instance. -/
def envC3 : WebhookEnv :=
  { envTrivial with
    verifyWebhook := fun _ _ =>
      .ok ⟨"evt_1", "checkout.session.completed", ⟨"cs_1", "complete"⟩, 0⟩
    retrieveCheckoutSession := fun i =>
      .ok ⟨i, some "https://s", some "complete", Option.none, Option.none, 0⟩
    handlers := { WebhookEventHandlers.none with
      onCheckoutComplete :=
        some (fun _ => .error (.webhook "handler exploded" "WEBHOOK_SIGNATURE_INVALID")) } }

/-- C3 counterexample: with `envC3` the signature verification succeeded
and a configured user handler threw, yet the pipeline answers 401 with the
handler's error surfaced as a signature failure — not 200 with
`received: true` — because the outer catch classifies errors by
`instanceof WebhookError`, not by pipeline stage. -/
theorem webhook_handler_throw_counterexample :
    (createWebhookHandler envC3 ⟨"POST", "payload", some "sig"⟩).1 =
      ⟨401, .webhookFail "WEBHOOK_SIGNATURE_INVALID" "handler exploded"⟩ ∧
    (createWebhookHandler envC3 ⟨"POST", "payload", some "sig"⟩).1.status ≠ 200 := by
  constructor
  · rfl
  · intro h
    rw [show (createWebhookHandler envC3 ⟨"POST", "payload", some "sig"⟩).1 =
        ⟨401, .webhookFail "WEBHOOK_SIGNATURE_INVALID" "handler exploded"⟩ from rfl] at h
    exact absurd h (by norm_num)

/-- Environment for the `webhook_acks_after_verification` witness: same as
`envC3` but the handler throws an ordinary (non-webhook) error. -/
def envC3w : WebhookEnv :=
  { envC3 with
    handlers := { WebhookEventHandlers.none with
      onCheckoutComplete := some (fun _ => .error (.other "boom")) } }

/-- Witness for `webhook_acks_after_verification`: the concrete pipeline run
in which the user handler rejects with an ordinary error still acknowledges. -/
theorem webhook_acks_after_verification_witness :
    (createWebhookHandler envC3w ⟨"POST", "payload", some "sig"⟩).1.status = 200 ∧
      (createWebhookHandler envC3w ⟨"POST", "payload", some "sig"⟩).1.body.received
        = some true := by
  refine webhook_acks_after_verification envC3w ⟨"POST", "payload", some "sig"⟩
    "sig" ⟨"evt_1", "checkout.session.completed", ⟨"cs_1", "complete"⟩, 0⟩
    rfl rfl rfl ?_
  refine ⟨?_, ?_, ?_, ?_, ?_, ?_, ?_, ?_, ?_, ?_, ?_, ?_⟩ <;> intros <;>
    simp_all [envC3w, envC3, envTrivial, SyncAdapter.none, WebhookEventHandlers.none] <;>
    subst_vars <;>
    simp_all [Err.isWebhookError] <;>
    subst_vars <;>
    rfl

end StripeSdk

namespace StripeSdk

/-- Concrete environment for the C4 counterexample: verification yields a
`customer.subscription.created` event, the facade returns a subscription,
the sync adapter's `onSubscriptionUpdated` rejects, and a user
`onSubscriptionCreated` handler is configured. -/
def envC4 : WebhookEnv :=
  { envTrivial with
    verifyWebhook := fun _ _ =>
      .ok ⟨"evt_2", "customer.subscription.created", ⟨"sub_2", "active"⟩, 0⟩
    retrieveSubscription := fun i =>
      .ok ⟨i, some (.byId "cus_2"), "active", 2, 1, false, [], Option.none, 0⟩
    sync := { SyncAdapter.none with
      onSubscriptionUpdated := some (fun _ => .error (.other "db down")) }
    handlers := { WebhookEventHandlers.none with
      onSubscriptionCreated := some (fun _ => .ok ()) } }

/-- C4 counterexample: with `envC4` the sync callback was invoked and
rejected, the response is still a 200 acknowledgement — but the configured
user handler for the same event is never invoked (its call list is empty),
because the sync rejection aborts the remaining pipeline steps via the
outer catch. -/
theorem webhook_sync_throw_counterexample :
    (createWebhookHandler envC4 ⟨"POST", "payload", some "sig"⟩).2.syncCalls =
      [.subscriptionUpdated (fetchLatestSubscription
        ⟨"sub_2", some (.byId "cus_2"), "active", 2, 1, false, [], Option.none, 0⟩)]
    ∧ (createWebhookHandler envC4 ⟨"POST", "payload", some "sig"⟩).2.handlerCalls = []
    ∧ (createWebhookHandler envC4 ⟨"POST", "payload", some "sig"⟩).1 =
      ⟨200, .ackLogged⟩ := by
  exact ⟨rfl, rfl, rfl⟩

/-- C4 (amended): a rejecting sync callback is caught by the pipeline's
outer catch and the response is still a success acknowledgement (200 with
`received: true`), but the remaining steps — including the user handler
for the same event — are skipped: the handler-call list stays empty. -/
theorem webhook_sync_throw_skips_handler (env : WebhookEnv) (req : WebRequest)
    (sig : String) (ev : WebhookEvent) (raw : RawSubscription) (e : Err)
    (cb h : Subscription → Except Err Unit)
    (hm : req.method = "POST") (hs : req.signatureHeader = some sig)
    (hv : env.verifyWebhook req.body sig = .ok ev)
    (ht : ev.type = "customer.subscription.created")
    (hcfg : env.loadConfig = .ok ())
    (hret : env.retrieveSubscription ev.data.id = .ok raw)
    (hcache : cacheAlwaysOk env)
    (hsync : env.sync.onSubscriptionUpdated = some cb)
    (hcb : cb (fetchLatestSubscription raw) = .error e)
    (he : e.isWebhookError = false)
    (hh : env.handlers.onSubscriptionCreated = some h) :
    createWebhookHandler env req =
      (⟨200, .ackLogged⟩,
       ⟨[(req.body, sig)],
        [.subscription ev.data.id],
        [.set ("subscription:" ++ (fetchLatestSubscription raw).id)
          (.ofSubscription (fetchLatestSubscription raw)) (some 3600),
         .set ("subscription:customer:" ++ (fetchLatestSubscription raw).customerId)
          (.ofString (fetchLatestSubscription raw).id) (some 3600)],
        [.subscriptionUpdated (fetchLatestSubscription raw)],
        []⟩) := by
  have hc : ∀ k v ttl, env.cacheSet k v ttl = .ok () := hcache
  have hty : ∀ tr, processEventByType env ev.type ev.data.id tr =
      processSubscriptionCreated env ev.data.id tr := by
    intro tr
    rw [ht]
    simp [processEventByType]
  simp only [createWebhookHandler, hm, hs, hv, runVerified, hcfg, processEvent, hty,
    processSubscriptionCreated, hret, doCacheSet, hc,
    processSubscriptionCreated.syncThenHandler, hsync, hcb,
    catchResp_nonWebhook e he,
    Trace.empty, Trace.addVerify, Trace.addFetch, Trace.addCacheOp, Trace.addSync,
    Trace.addHandler]
  simp

/-- Witness for `webhook_sync_throw_skips_handler` at the concrete
environment of the counterexample. -/
theorem webhook_sync_throw_skips_handler_witness :
    createWebhookHandler envC4 ⟨"POST", "payload", some "sig"⟩ =
      (⟨200, .ackLogged⟩,
       ⟨[("payload", "sig")],
        [.subscription "sub_2"],
        [.set ("subscription:" ++ (fetchLatestSubscription
            ⟨"sub_2", some (.byId "cus_2"), "active", 2, 1, false, [], Option.none, 0⟩).id)
          (.ofSubscription (fetchLatestSubscription
            ⟨"sub_2", some (.byId "cus_2"), "active", 2, 1, false, [], Option.none, 0⟩))
          (some 3600),
         .set ("subscription:customer:" ++ (fetchLatestSubscription
            ⟨"sub_2", some (.byId "cus_2"), "active", 2, 1, false, [], Option.none, 0⟩).customerId)
          (.ofString (fetchLatestSubscription
            ⟨"sub_2", some (.byId "cus_2"), "active", 2, 1, false, [], Option.none, 0⟩).id)
          (some 3600)],
        [.subscriptionUpdated (fetchLatestSubscription
          ⟨"sub_2", some (.byId "cus_2"), "active", 2, 1, false, [], Option.none, 0⟩)],
        []⟩) := by
  exact webhook_sync_throw_skips_handler envC4 ⟨"POST", "payload", some "sig"⟩ "sig"
    ⟨"evt_2", "customer.subscription.created", ⟨"sub_2", "active"⟩, 0⟩
    ⟨"sub_2", some (.byId "cus_2"), "active", 2, 1, false, [], Option.none, 0⟩
    (.other "db down") (fun _ => .error (.other "db down")) (fun _ => .ok ())
    rfl rfl rfl rfl rfl rfl (fun _ _ _ => rfl) rfl rfl rfl rfl

end StripeSdk

namespace StripeSdk

/-- C10: in the `checkout.session.completed` path, when the fresh session
carries a customer id but the customer re-fetch finds the customer deleted
upstream (a thrown `PaymentError` after the session has been cached), the
run ends with exactly one cache operation — the already-performed
`checkout:<sessionId>` write, with no compensating delete — no sync call,
no handler call, and the response is still HTTP 200. -/
theorem webhook_checkout_partial_write_persists (env : WebhookEnv)
    (req : WebRequest) (sig cid : String) (ev : WebhookEvent)
    (raw : RawCheckoutSession) (rawC : RawCustomer)
    (hm : req.method = "POST") (hs : req.signatureHeader = some sig)
    (hv : env.verifyWebhook req.body sig = .ok ev)
    (ht : ev.type = "checkout.session.completed")
    (hcfg : env.loadConfig = .ok ())
    (hret : env.retrieveCheckoutSession ev.data.id = .ok raw)
    (hcid : truthyStr (fetchLatestCheckoutSession raw).customerId = some cid)
    (hrc : env.retrieveCustomer cid = .ok rawC)
    (hdel : rawC.deleted = true)
    (hcache : cacheAlwaysOk env) :
    createWebhookHandler env req =
      (⟨200, .ackLogged⟩,
       ⟨[(req.body, sig)],
        [.checkoutSession ev.data.id, .customer cid],
        [.set ("checkout:" ++ (fetchLatestCheckoutSession raw).id)
          (.ofSession (fetchLatestCheckoutSession raw)) (some 3600)],
        [], []⟩) := by
  have hc : ∀ k v ttl, env.cacheSet k v ttl = .ok () := hcache
  have hty : ∀ tr, processEventByType env ev.type ev.data.id tr =
      processCheckoutCompleted env ev.data.id tr := by
    intro tr
    rw [ht]
    simp [processEventByType]
  have hfc : fetchLatestCustomer rawC =
      .error (.payment ("Customer " ++ rawC.id ++ " has been deleted")
        "CUSTOMER_NOT_FOUND" 404) := by
    rw [fetchLatestCustomer, if_pos hdel]
  simp only [createWebhookHandler, hm, hs, hv, runVerified, hcfg, processEvent, hty,
    processCheckoutCompleted, hret, doCacheSet, hc, cacheCustomerOfSession, hcid,
    doFetchCustomer, hrc, hfc, catchResp,
    Trace.empty, Trace.addVerify, Trace.addFetch, Trace.addCacheOp, Trace.addSync,
    Trace.addHandler]
  simp

/-- Witness for `webhook_checkout_partial_write_persists`: a concrete run
whose session references customer `cus_3`, deleted upstream. -/
theorem webhook_checkout_partial_write_persists_witness :
    createWebhookHandler
      { envTrivial with
        verifyWebhook := fun _ _ =>
          .ok ⟨"evt_3", "checkout.session.completed", ⟨"cs_3", "complete"⟩, 0⟩
        retrieveCheckoutSession := fun i =>
          .ok ⟨i, some "https://s", some "complete", some (.byId "cus_3"), Option.none, 0⟩
        retrieveCustomer := fun i =>
          .ok ⟨i, Option.none, Option.none, Option.none, true, 0⟩ }
      ⟨"POST", "payload", some "sig"⟩ =
      (⟨200, .ackLogged⟩,
       ⟨[("payload", "sig")],
        [.checkoutSession "cs_3", .customer "cus_3"],
        [.set ("checkout:" ++ (fetchLatestCheckoutSession
            ⟨"cs_3", some "https://s", some "complete", some (.byId "cus_3"), Option.none, 0⟩).id)
          (.ofSession (fetchLatestCheckoutSession
            ⟨"cs_3", some "https://s", some "complete", some (.byId "cus_3"), Option.none, 0⟩))
          (some 3600)],
        [], []⟩) := by
  exact webhook_checkout_partial_write_persists _ ⟨"POST", "payload", some "sig"⟩
    "sig" "cus_3" ⟨"evt_3", "checkout.session.completed", ⟨"cs_3", "complete"⟩, 0⟩
    ⟨"cs_3", some "https://s", some "complete", some (.byId "cus_3"), Option.none, 0⟩
    ⟨"cus_3", Option.none, Option.none, Option.none, true, 0⟩
    rfl rfl rfl rfl rfl rfl rfl rfl rfl (fun _ _ _ => rfl)

end StripeSdk

namespace StripeSdk

/-! ## Configuration loading (src/core/config.ts) and the
`StripeProvider` constructor (src/providers/stripe/api.ts)

`loadStripeConfig` resolves the secret key and webhook secret from
overrides or the environment; the two optional-string inputs here are the
values after the `overrides?.x ?? process.env[...]` resolution.  The
`StripeProvider` constructor runs exactly `loadStripeConfig`.
`validateWebhookSecret` is a separate helper the constructor does not
call; the core provider invokes it inside `verifyWebhook`, and
`StripeProvider.verifyWebhook` only checks presence.

The JS string builtins used by config.ts are modelled executably:
`jsTrim` strips leading and trailing whitespace, `jsStartsWith` tests a
leading substring. -/

/-- A whitespace character as `String.prototype.trim` sees it (the common
cases; the full JS set also has unicode spaces). -/
def jsWs (c : Char) : Bool := c = ' ' || c = '\t' || c = '\n' || c = '\r'

/-- `String.prototype.trim`: drop whitespace from both ends. -/
def jsTrim (s : String) : String :=
  String.mk (((s.data.dropWhile jsWs).reverse.dropWhile jsWs).reverse)

/-- `String.prototype.startsWith`. -/
def jsStartsWith (s p : String) : Bool := p.data.isPrefixOf s.data

/-- The validated configuration (`StripeConfig`). -/
structure StripeConfigM where
  secretKey : String
  webhookSecret : Option String
deriving DecidableEq

/-- config.ts `loadStripeConfig`: reject a falsy secret key, a
whitespace-only secret key, and one without the `sk_test_`/`sk_live_`
prefix; trim both secrets, turning an empty trimmed webhook secret into
`undefined` (`webhookSecret?.trim() || undefined`). -/
def loadStripeConfig (secretKey? webhookSecret? : Option String) :
    Except Err StripeConfigM :=
  match truthyStr secretKey? with
  | none =>
    .error (.config "Missing required environment variable: STRIPE_SECRET_KEY.")
  | some sk =>
    if (jsTrim sk).length = 0 then
      .error (.config "Invalid STRIPE_SECRET_KEY: must be a non-empty string.")
    else if ¬ (jsStartsWith sk "sk_test_" = true ∨ jsStartsWith sk "sk_live_" = true) then
      .error (.config "Invalid STRIPE_SECRET_KEY format.")
    else
      .ok ⟨jsTrim sk, webhookSecret?.bind (fun w => truthyStr (some (jsTrim w)))⟩

/-- config.ts `validateWebhookSecret(config, required)`: error when
required but absent; error when present without the `whsec_` prefix. -/
def validateWebhookSecret (cfg : StripeConfigM) (required : Bool) :
    Except Err Unit :=
  if required ∧ truthyStr cfg.webhookSecret = none then
    .error (.config "Missing required environment variable: STRIPE_WEBHOOK_SECRET.")
  else
    match truthyStr cfg.webhookSecret with
    | some w =>
      if ¬ jsStartsWith w "whsec_" = true then
        .error (.config "Invalid STRIPE_WEBHOOK_SECRET format.")
      else .ok ()
    | none => .ok ()

/-- The `StripeProvider` constructor (api.ts line 330-335): it runs
`loadStripeConfig(options.config)` and nothing else that can throw — in
particular it never calls `validateWebhookSecret`. -/
def stripeProviderInit (secretKey? webhookSecret? : Option String) :
    Except Err StripeConfigM :=
  loadStripeConfig secretKey? webhookSecret?

/-- The guard at the top of `StripeProvider.verifyWebhook`: a falsy
webhook secret throws a `WebhookError` at call time; a truthy one is
passed on to signature verification with no prefix check. -/
def stripeProviderVerifyGate (cfg : StripeConfigM) : Except Err String :=
  match truthyStr cfg.webhookSecret with
  | none =>
    .error (.webhook "Webhook secret is not configured." "WEBHOOK_SIGNATURE_INVALID")
  | some w => .ok w

/-- C9 counterexample: constructing a `StripeProvider` with a well-formed
secret key and the malformed webhook secret `"banana"` (no `whsec_`
prefix) succeeds — no configuration error is raised at construction even
though `validateWebhookSecret` rejects that secret — and construction with
the webhook secret absent succeeds as well, the absence surfacing only at
verification time as a `WebhookError`. -/
theorem config_eager_validation_counterexample :
    stripeProviderInit (some "sk_test_abc") (some "banana") =
      .ok ⟨"sk_test_abc", some "banana"⟩
    ∧ validateWebhookSecret ⟨"sk_test_abc", some "banana"⟩ false =
      .error (.config "Invalid STRIPE_WEBHOOK_SECRET format.")
    ∧ stripeProviderInit (some "sk_test_abc") Option.none =
      .ok ⟨"sk_test_abc", Option.none⟩
    ∧ stripeProviderVerifyGate ⟨"sk_test_abc", Option.none⟩ =
      .error (.webhook "Webhook secret is not configured." "WEBHOOK_SIGNATURE_INVALID") := by
  refine ⟨?_, ?_, ?_, ?_⟩ <;>
    simp [stripeProviderInit, loadStripeConfig, validateWebhookSecret,
      stripeProviderVerifyGate, truthyStr] <;> decide

/-- C9 (amended): only the provider secret key is validated eagerly at
construction — success implies it matched the `sk_test_`/`sk_live_`
prefix pattern, and a failed prefix check raises a descriptive
configuration error; the webhook signing secret is not validated at
construction (any value, malformed or absent, yields the same
construction outcome), its absence surfacing at webhook-verification time
as a `WebhookError` and its `whsec_` prefix being checked only by the
separate `validateWebhookSecret` helper. -/
theorem config_eager_secret_key_only (sk : String) (wh? : Option String) :
    ((stripeProviderInit (some sk) wh?).isOk = true →
      (jsStartsWith sk "sk_test_" = true ∨ jsStartsWith sk "sk_live_" = true))
    ∧ ((stripeProviderInit (some sk) wh?).isOk =
        (stripeProviderInit (some sk) Option.none).isOk)
    ∧ (sk ≠ "" → (jsTrim sk).length ≠ 0 →
        ¬ jsStartsWith sk "sk_test_" = true → ¬ jsStartsWith sk "sk_live_" = true →
        stripeProviderInit (some sk) wh? =
          .error (.config "Invalid STRIPE_SECRET_KEY format."))
    ∧ (∀ cfg : StripeConfigM, cfg.webhookSecret = Option.none →
        stripeProviderVerifyGate cfg =
          .error (.webhook "Webhook secret is not configured."
            "WEBHOOK_SIGNATURE_INVALID"))
    ∧ (∀ cfg : StripeConfigM, ∀ w, cfg.webhookSecret = some w → w ≠ "" →
        ¬ jsStartsWith w "whsec_" = true →
        validateWebhookSecret cfg false =
          .error (.config "Invalid STRIPE_WEBHOOK_SECRET format.")) := by
  refine ⟨?_, ?_, ?_, ?_, ?_⟩
  · intro hok
    rw [stripeProviderInit, loadStripeConfig] at hok
    by_cases hsk : sk = ""
    · simp [truthyStr, hsk, Except.isOk, Except.toBool] at hok
    · simp only [truthyStr, if_neg hsk] at hok
      by_cases htrim : (jsTrim sk).length = 0
      · simp [htrim, Except.isOk, Except.toBool] at hok
      · by_cases hpre : jsStartsWith sk "sk_test_" = true ∨ jsStartsWith sk "sk_live_" = true
        · exact hpre
        · simp [htrim, hpre, Except.isOk, Except.toBool] at hok
  · rw [stripeProviderInit, stripeProviderInit, loadStripeConfig, loadStripeConfig]
    by_cases hsk : sk = ""
    · simp [truthyStr, hsk]
    · simp only [truthyStr, if_neg hsk]
      by_cases htrim : (jsTrim sk).length = 0
      · simp [htrim]
      · by_cases hpre : jsStartsWith sk "sk_test_" = true ∨ jsStartsWith sk "sk_live_" = true
        · simp [htrim, hpre, Except.isOk, Except.toBool]
        · simp [htrim, hpre]
  · intro hsk htrim h1 h2
    rw [stripeProviderInit, loadStripeConfig]
    simp [truthyStr, hsk, htrim, h1, h2]
  · intro cfg hw
    simp [stripeProviderVerifyGate, hw, truthyStr]
  · intro cfg w hw hne hpre
    rw [validateWebhookSecret]
    simp [truthyStr, hw, hne, hpre]

/-- Witness for `config_eager_secret_key_only` at a concrete secret key
and a malformed concrete webhook secret. -/
theorem config_eager_secret_key_only_witness :
    (jsStartsWith "sk_test_abc" "sk_test_" = true ∨
      jsStartsWith "sk_test_abc" "sk_live_" = true)
    ∧ stripeProviderInit (some "nope") (some "whsec_x") =
      .error (.config "Invalid STRIPE_SECRET_KEY format.")
    ∧ validateWebhookSecret ⟨"sk_test_abc", some "banana"⟩ false =
      .error (.config "Invalid STRIPE_WEBHOOK_SECRET format.") := by
  refine ⟨?_, ?_, ?_⟩
  · exact (config_eager_secret_key_only "sk_test_abc" (some "banana")).1
      (by decide)
  · exact (config_eager_secret_key_only "nope" (some "whsec_x")).2.2.1
      (by decide) (by decide) (by decide) (by decide)
  · exact (config_eager_secret_key_only "sk_test_abc" (some "banana")).2.2.2.2
      ⟨"sk_test_abc", some "banana"⟩ "banana" rfl (by decide) (by decide)

end StripeSdk

namespace StripeSdk

/-! ## Customer-first checkout (src/providers/stripe/api.ts)

`StripeProvider.createCheckout` resolves or creates the customer for the
external user id carried in `options.metadata.userId`, then creates the
session with that customer id.  The provider's KV adapter is instantiated
with the repository's in-memory reference adapter (`MemoryAdapter`), so
cache reads and writes are concrete; the Stripe client is the environment
`StripeApiEnv`.  The provider's trace records the upstream
`customers.create` and `checkout.sessions.create` calls. -/

/-- `CheckoutOptions` of core/types.ts. -/
structure CheckoutOptions where
  priceId : String
  successUrl : String
  cancelUrl : String
  customerEmail : Option String
  customerId : Option String
  metadata : Option Meta
  mode : Option String
  quantity : Option Int
  trialDays : Option Int
deriving DecidableEq

/-- `CustomerData` of core/types.ts. -/
structure CustomerData where
  email : String
  name : Option String
  metadata : Option Meta
deriving DecidableEq

/-- The parameters api.ts `createCheckoutSession` sends to
`stripe.checkout.sessions.create`. -/
structure SessionParams where
  priceId : String
  quantity : Int
  mode : String
  successUrl : String
  cancelUrl : String
  metadata : Option Meta
  customer : Option String
  customerEmail : Option String
  trialDays : Option Int
  subscriptionMetadata : Option Meta
deriving DecidableEq

/-- The raw response of `stripe.customers.create`; the email echoes the
one in the request, per the upstream contract for create-with-email. -/
structure CreatedCustomer where
  id : String
  email : String
  name : Option String
  metadata : Option Meta
  created : Int
deriving DecidableEq

/-- The Stripe client calls `createCheckout` performs. -/
structure StripeApiEnv where
  customersCreate : CustomerData → Except Err CreatedCustomer
  sessionsCreate : SessionParams → Except Err RawCheckoutSession

/-- The provider's mutable context: the backing store of the in-memory
cache adapter plus the record of upstream create calls. -/
structure ProviderState where
  store : MemStore CVal
  customerCreates : List CustomerData
  sessionCreates : List SessionParams

/-- The JS spread `{ userId, ...options.metadata }`: `userId` defaults to
the external id but an explicit metadata entry wins; all other entries
are kept. -/
def metaWithUserId (uid : String) (m? : Option Meta) : Meta :=
  let m := m?.getD []
  ("userId", (metaLookup m "userId").getD uid) :: m.filter (fun p => p.1 ≠ "userId")

/-- JS truthiness of a cached value: `null`/empty string falsy, any other
string and any object truthy. -/
def CVal.truthy : CVal → Bool
  | .ofString s => s ≠ ""
  | _ => true

/-- The string the code reads out of the `customer:userId:` cache entry
(`cache.get<string>`); only string values ever reach that key in the
modelled flows. -/
def CVal.asString : CVal → String
  | .ofString s => s
  | _ => ""

/-- api.ts `createCheckoutSession`, request-building step: quantity
defaults to 1, mode to `subscription`; a truthy `customerId` wins over
`customerEmail`; trial data is attached only when `options.mode` is
literally `subscription` and `trialDays` is truthy (a number is truthy
when nonzero). -/
def buildSessionParams (opts : CheckoutOptions) : SessionParams :=
  let trial :=
    if opts.mode = some "subscription" then
      match opts.trialDays with
      | some t => if t ≠ 0 then some t else Option.none
      | none => Option.none
    else Option.none
  { priceId := opts.priceId
    quantity := opts.quantity.getD 1
    mode := opts.mode.getD "subscription"
    successUrl := opts.successUrl
    cancelUrl := opts.cancelUrl
    metadata := opts.metadata
    customer := truthyStr opts.customerId
    customerEmail :=
      match truthyStr opts.customerId with
      | some _ => Option.none
      | none => truthyStr opts.customerEmail
    trialDays := trial
    subscriptionMetadata := match trial with
      | some _ => opts.metadata
      | none => Option.none }

/-- Steps 4-5 of `createCheckout`: build the session options with the
resolved customer id and the userId-bearing metadata, create the session
upstream, map it (same shape mapping as the webhook fetch; the `url!`
non-null assertion is `?? ''` here) and cache it one hour under
`checkout:<sessionId>`. -/
def createCheckoutWithCustomer (env : StripeApiEnv) (now : Int)
    (opts : CheckoutOptions) (uid customerId : String) (st : ProviderState) :
    Except Err CheckoutSession × ProviderState :=
  let checkoutOptions :=
    { opts with customerId := some customerId
                metadata := some (metaWithUserId uid opts.metadata) }
  let params := buildSessionParams checkoutOptions
  let st := { st with sessionCreates := st.sessionCreates ++ [params] }
  match env.sessionsCreate params with
  | .error e => (.error e, st)
  | .ok raw =>
    let session := fetchLatestCheckoutSession raw
    let store := MemoryAdapter.set now st.store ("checkout:" ++ session.id)
      (.ofSession session) (some 3600)
    (.ok session, { st with store := store })

/-- Step 2-3 of `createCheckout` on a cache miss: create the customer
upstream with the email and the userId-bearing metadata, then cache the
new id permanently (no TTL) under `customer:userId:<userId>` and
`customer:email:<email>`. -/
def createCheckoutNewCustomer (env : StripeApiEnv) (now : Int)
    (opts : CheckoutOptions) (uid email cacheKey : String) (st : ProviderState) :
    Except Err CheckoutSession × ProviderState :=
  let customerData : CustomerData :=
    ⟨email, Option.none, some (metaWithUserId uid opts.metadata)⟩
  let st := { st with customerCreates := st.customerCreates ++ [customerData] }
  match env.customersCreate customerData with
  | .error e => (.error e, st)
  | .ok resp =>
    let customerId := resp.id
    let store := MemoryAdapter.set now st.store cacheKey
      (.ofString customerId) Option.none
    let store := MemoryAdapter.set now store ("customer:email:" ++ email)
      (.ofString customerId) Option.none
    createCheckoutWithCustomer env now opts uid customerId { st with store := store }

/-- api.ts `StripeProvider.createCheckout`: validate userId and email,
look the customer id up under `customer:userId:<userId>`, reuse it when
truthy, otherwise create-and-cache, then create the session. -/
def StripeProvider.createCheckout (env : StripeApiEnv) (now : Int)
    (opts : CheckoutOptions) (st : ProviderState) :
    Except Err CheckoutSession × ProviderState :=
  match truthyStr (opts.metadata.bind (fun m => metaLookup m "userId")) with
  | none =>
    (.error (.payment "userId is required in metadata for checkout"
      "INVALID_REQUEST" 400), st)
  | some uid =>
    match truthyStr opts.customerEmail with
    | none =>
      (.error (.payment "customerEmail is required for checkout"
        "INVALID_REQUEST" 400), st)
    | some email =>
      let cacheKey := "customer:userId:" ++ uid
      let res := MemoryAdapter.get now st.store cacheKey
      let st := { st with store := res.2 }
      match res.1 with
      | some v =>
        if v.truthy then
          createCheckoutWithCustomer env now opts uid v.asString st
        else
          createCheckoutNewCustomer env now opts uid email cacheKey st
      | none => createCheckoutNewCustomer env now opts uid email cacheKey st

end StripeSdk

namespace StripeSdk

/-- Two string concatenations with fixed distinct prefixes differ: if the
prefixes disagree at some index, so do the full keys. -/
theorem strAppend_ne_of_differ (a b s t : String) (i : Nat) (c c' : Char)
    (ha : a.data[i]? = some c) (hb : b.data[i]? = some c') (hcc : c ≠ c') :
    a ++ s ≠ b ++ t := by
  intro h
  have hd : (a ++ s).data = (b ++ t).data := congrArg String.data h
  rw [String.data_append, String.data_append] at hd
  have hia : i < a.data.length := by
    by_contra hlt
    rw [List.getElem?_eq_none (by omega)] at ha
    exact Option.noConfusion ha
  have hib : i < b.data.length := by
    by_contra hlt
    rw [List.getElem?_eq_none (by omega)] at hb
    exact Option.noConfusion hb
  have h1 : (a.data ++ s.data)[i]? = some c := by
    rw [List.getElem?_append, if_pos hia]
    exact ha
  have h2 : (b.data ++ t.data)[i]? = some c' := by
    rw [List.getElem?_append, if_pos hib]
    exact hb
  rw [hd, h2] at h1
  exact hcc (Option.some.inj h1).symm

theorem key_chk_ne_userId (sid uid : String) :
    "checkout:" ++ sid ≠ "customer:userId:" ++ uid :=
  strAppend_ne_of_differ _ _ _ _ 1 'h' 'u' (by decide) (by decide) (by decide)

theorem key_email_ne_userId (em uid : String) :
    "customer:email:" ++ em ≠ "customer:userId:" ++ uid :=
  strAppend_ne_of_differ _ _ _ _ 9 'e' 'u' (by decide) (by decide) (by decide)

theorem key_chk_ne_email (sid em : String) :
    "checkout:" ++ sid ≠ "customer:email:" ++ em :=
  strAppend_ne_of_differ _ _ _ _ 1 'h' 'u' (by decide) (by decide) (by decide)

/-- C5: two `createCheckout` calls carrying the same external user id
(possibly different emails) perform exactly one upstream customer
creation: the first call creates and caches the customer id, the second
finds it under `customer:userId:<userId>` and reuses it; both sessions
reference that customer id, and the `customer:userId` and
`customer:email` mapping entries sit in the store with no expiry
(permanent). -/
theorem createCheckout_customer_dedup
    (env : StripeApiEnv) (now₁ now₂ : Int) (opts₁ opts₂ : CheckoutOptions)
    (st₀ : ProviderState) (uid email₁ email₂ : String) (resp : CreatedCustomer)
    (mkSess : SessionParams → RawCheckoutSession)
    (huid1 : truthyStr (opts₁.metadata.bind (fun m => metaLookup m "userId")) = some uid)
    (huid2 : truthyStr (opts₂.metadata.bind (fun m => metaLookup m "userId")) = some uid)
    (hem1 : truthyStr opts₁.customerEmail = some email₁)
    (hem2 : truthyStr opts₂.customerEmail = some email₂)
    (hkey : lookupKey st₀.store ("customer:userId:" ++ uid) = none)
    (hcc : env.customersCreate
      ⟨email₁, Option.none, some (metaWithUserId uid opts₁.metadata)⟩ = .ok resp)
    (hrid : resp.id ≠ "")
    (hsess : ∀ p, env.sessionsCreate p = .ok (mkSess p))
    (hecho : ∀ p, (mkSess p).customer = p.customer.map CustRef.byId) :
    ∃ s₁ s₂ : CheckoutSession,
      (StripeProvider.createCheckout env now₁ opts₁ st₀).1 = .ok s₁
      ∧ (StripeProvider.createCheckout env now₂ opts₂
          (StripeProvider.createCheckout env now₁ opts₁ st₀).2).1 = .ok s₂
      ∧ s₁.customerId = some resp.id
      ∧ s₂.customerId = some resp.id
      ∧ (StripeProvider.createCheckout env now₂ opts₂
          (StripeProvider.createCheckout env now₁ opts₁ st₀).2).2.customerCreates =
          st₀.customerCreates ++
            [⟨email₁, Option.none, some (metaWithUserId uid opts₁.metadata)⟩]
      ∧ lookupKey (StripeProvider.createCheckout env now₂ opts₂
          (StripeProvider.createCheckout env now₁ opts₁ st₀).2).2.store
          ("customer:userId:" ++ uid) = some ⟨.ofString resp.id, Option.none⟩
      ∧ lookupKey (StripeProvider.createCheckout env now₂ opts₂
          (StripeProvider.createCheckout env now₁ opts₁ st₀).2).2.store
          ("customer:email:" ++ email₁) = some ⟨.ofString resp.id, Option.none⟩ := by
  have hget1 : MemoryAdapter.get now₁ st₀.store ("customer:userId:" ++ uid) =
      (none, st₀.store) := by
    simp [MemoryAdapter.get, hkey]
  set p₁ := buildSessionParams
    { opts₁ with customerId := some resp.id
                 metadata := some (metaWithUserId uid opts₁.metadata) } with hp₁
  set s₁ := fetchLatestCheckoutSession (mkSess p₁) with hs₁
  set store1 :=
    MemoryAdapter.set now₁
      (MemoryAdapter.set now₁
        (MemoryAdapter.set now₁ st₀.store ("customer:userId:" ++ uid)
          (.ofString resp.id) Option.none)
        ("customer:email:" ++ email₁) (.ofString resp.id) Option.none)
      ("checkout:" ++ s₁.id) (.ofSession s₁) (some 3600) with hstore1
  have hrun1 : StripeProvider.createCheckout env now₁ opts₁ st₀ =
      (.ok s₁,
       ⟨store1,
        st₀.customerCreates ++
          [⟨email₁, Option.none, some (metaWithUserId uid opts₁.metadata)⟩],
        st₀.sessionCreates ++ [p₁]⟩) := by
    simp only [StripeProvider.createCheckout, huid1, hem1, hget1,
      createCheckoutNewCustomer, hcc, createCheckoutWithCustomer, hsess,
      hp₁, hs₁, hstore1]
  have hlook1 : lookupKey store1 ("customer:userId:" ++ uid) =
      some ⟨.ofString resp.id, Option.none⟩ := by
    rw [hstore1]
    simp only [MemoryAdapter.set]
    rw [lookupKey_setKey_other _ _ _ _ (key_chk_ne_userId s₁.id uid),
      lookupKey_setKey_other _ _ _ _ (key_email_ne_userId email₁ uid),
      lookupKey_setKey_self]
  have hget2 : MemoryAdapter.get now₂ store1 ("customer:userId:" ++ uid) =
      (some (.ofString resp.id), store1) := by
    simp [MemoryAdapter.get, hlook1]
  have htruthy : CVal.truthy (.ofString resp.id) = true := by
    simp [CVal.truthy, hrid]
  set p₂ := buildSessionParams
    { opts₂ with customerId := some resp.id
                 metadata := some (metaWithUserId uid opts₂.metadata) } with hp₂
  set s₂ := fetchLatestCheckoutSession (mkSess p₂) with hs₂
  have hrun2 : StripeProvider.createCheckout env now₂ opts₂
      (StripeProvider.createCheckout env now₁ opts₁ st₀).2 =
      (.ok s₂,
       ⟨MemoryAdapter.set now₂ store1 ("checkout:" ++ s₂.id)
          (.ofSession s₂) (some 3600),
        st₀.customerCreates ++
          [⟨email₁, Option.none, some (metaWithUserId uid opts₁.metadata)⟩],
        st₀.sessionCreates ++ [p₁] ++ [p₂]⟩) := by
    rw [hrun1]
    simp only [StripeProvider.createCheckout, huid2, hem2, hget2, htruthy,
      if_pos, createCheckoutWithCustomer, hsess, CVal.asString, hp₂, hs₂]
  have hcust : ∀ p : SessionParams, p.customer = some resp.id →
      (fetchLatestCheckoutSession (mkSess p)).customerId = some resp.id := by
    intro p hp
    simp [fetchLatestCheckoutSession, hecho p, hp, CustRef.refId]
  have hp₁c : p₁.customer = some resp.id := by
    simp [hp₁, buildSessionParams, truthyStr, hrid]
  have hp₂c : p₂.customer = some resp.id := by
    simp [hp₂, buildSessionParams, truthyStr, hrid]
  refine ⟨s₁, s₂, ?_, ?_, ?_, ?_, ?_, ?_, ?_⟩
  · rw [hrun1]
  · rw [hrun2]
  · exact hcust p₁ hp₁c
  · exact hcust p₂ hp₂c
  · rw [hrun2]
  · rw [hrun2]
    simp only [MemoryAdapter.set]
    rw [lookupKey_setKey_other _ _ _ _ (key_chk_ne_userId s₂.id uid)]
    exact hlook1
  · rw [hrun2]
    simp only [MemoryAdapter.set]
    rw [lookupKey_setKey_other _ _ _ _ (key_chk_ne_email s₂.id email₁)]
    rw [hstore1]
    simp only [MemoryAdapter.set]
    rw [lookupKey_setKey_other _ _ _ _ (key_chk_ne_email s₁.id email₁),
      lookupKey_setKey_self]

end StripeSdk

namespace StripeSdk

/-- Concrete Stripe client for the C5 witness: customer creation echoes
the request, session creation echoes the passed customer id. -/
def env5 : StripeApiEnv :=
  { customersCreate := fun d => .ok ⟨"cus_w", d.email, Option.none, d.metadata, 0⟩
    sessionsCreate := fun p =>
      .ok ⟨"cs_w", some "https://s", some "open", p.customer.map .byId, p.metadata, 0⟩ }

/-- The session-shaped oracle matching `env5.sessionsCreate`. -/
def mkSess5 (p : SessionParams) : RawCheckoutSession :=
  ⟨"cs_w", some "https://s", some "open", p.customer.map .byId, p.metadata, 0⟩

/-- First checkout request of the C5 witness (user u1, first email). -/
def opts5a : CheckoutOptions :=
  ⟨"price_1", "https://ok", "https://no", some "a@x.com", Option.none,
    some [("userId", "u1")], Option.none, Option.none, Option.none⟩

/-- Second checkout request of the C5 witness (same user, different email). -/
def opts5b : CheckoutOptions :=
  ⟨"price_1", "https://ok", "https://no", some "b@y.com", Option.none,
    some [("userId", "u1")], Option.none, Option.none, Option.none⟩

/-- The created customer `env5` returns for the first request. -/
def resp5 : CreatedCustomer :=
  ⟨"cus_w", "a@x.com", Option.none,
    some (metaWithUserId "u1" (some [("userId", "u1")])), 0⟩

/-- Witness for `createCheckout_customer_dedup` at the concrete inputs. -/
theorem createCheckout_customer_dedup_witness :
    ∃ s₁ s₂ : CheckoutSession,
      (StripeProvider.createCheckout env5 0 opts5a ⟨[], [], []⟩).1 = .ok s₁
      ∧ (StripeProvider.createCheckout env5 1000 opts5b
          (StripeProvider.createCheckout env5 0 opts5a ⟨[], [], []⟩).2).1 = .ok s₂
      ∧ s₁.customerId = some resp5.id
      ∧ s₂.customerId = some resp5.id
      ∧ (StripeProvider.createCheckout env5 1000 opts5b
          (StripeProvider.createCheckout env5 0 opts5a ⟨[], [], []⟩).2).2.customerCreates =
          [] ++ [⟨"a@x.com", Option.none, some (metaWithUserId "u1" opts5a.metadata)⟩]
      ∧ lookupKey (StripeProvider.createCheckout env5 1000 opts5b
          (StripeProvider.createCheckout env5 0 opts5a ⟨[], [], []⟩).2).2.store
          ("customer:userId:" ++ "u1") = some ⟨.ofString resp5.id, Option.none⟩
      ∧ lookupKey (StripeProvider.createCheckout env5 1000 opts5b
          (StripeProvider.createCheckout env5 0 opts5a ⟨[], [], []⟩).2).2.store
          ("customer:email:" ++ "a@x.com") = some ⟨.ofString resp5.id, Option.none⟩ :=
  createCheckout_customer_dedup env5 0 1000 opts5a opts5b ⟨[], [], []⟩
    "u1" "a@x.com" "b@y.com" resp5 mkSess5
    (by decide) (by decide) (by decide) (by decide) rfl rfl (by decide)
    (fun _ => rfl) (fun _ => rfl)

end StripeSdk

namespace StripeSdk

/-! ## Remote (Upstash) adapter wire encoding (src/adapters/upstash.ts)

`set` stores a primitive string verbatim and `JSON.stringify`s everything
else; `get` takes the stored string and tries `JSON.parse`, returning the
raw string when parsing fails.  The JS value universe is modelled by
`JVal` (numbers as integers — the adapter's callers store ids, counters
and entity objects; float formatting is out of scope), and
`JSON.stringify` / `JSON.parse` by an executable serializer and a
fuel-indexed recursive-descent parser over the canonical whitespace-free
grammar the serializer emits. -/

/-- A JavaScript value as the adapter sees it. -/
inductive JVal where
  | jnull
  | jbool (b : Bool)
  | jnum (n : Int)
  | jstr (s : String)
  | jarr (elems : List JVal)
  | jobj (fields : List (String × JVal))

/-- The opening brace character, kept out of literals. -/
def obrace : Char := Char.ofNat 123

/-- The closing brace character. -/
def cbrace : Char := Char.ofNat 125

/-- `JSON.stringify` escaping for one character of a string (the common
escapes; other control characters are passed through). -/
def escChar (c : Char) : List Char :=
  if c = '"' then ['\\', '"']
  else if c = '\\' then ['\\', '\\']
  else if c = '\n' then ['\\', 'n']
  else if c = '\t' then ['\\', 't']
  else if c = '\r' then ['\\', 'r']
  else [c]

/-- The quoted, escaped serialization of a string. -/
def quoteStr (s : String) : List Char :=
  '"' :: (s.data.bind escChar ++ ['"'])

/-- Decimal digits of `n`, most significant first, onto `acc`. -/
def natBody (n : Nat) (acc : List Char) : List Char :=
  let d := Char.ofNat (48 + n % 10)
  if h : n < 10 then d :: acc else natBody (n / 10) (d :: acc)
termination_by n
decreasing_by
  exact Nat.div_lt_self (by omega) (by omega)

/-- Decimal serialization of an integer. -/
def intBody (i : Int) : List Char :=
  (if i < 0 then ['-'] else []) ++ natBody i.natAbs []

mutual
/-- `JSON.stringify` (canonical: no whitespace). -/
def jser : JVal → List Char
  | .jnull => ['n', 'u', 'l', 'l']
  | .jbool true => ['t', 'r', 'u', 'e']
  | .jbool false => ['f', 'a', 'l', 's', 'e']
  | .jnum n => intBody n
  | .jstr s => quoteStr s
  | .jarr es => '[' :: (jserItems es ++ [']'])
  | .jobj fs => obrace :: (jserFields fs ++ [cbrace])
/-- Array elements: first element, then comma-led rest. -/
def jserItems : List JVal → List Char
  | [] => []
  | e :: es => jser e ++ jserRest es
def jserRest : List JVal → List Char
  | [] => []
  | e :: es => ',' :: (jser e ++ jserRest es)
/-- Object members: `"key":value` pairs, comma separated. -/
def jserFields : List (String × JVal) → List Char
  | [] => []
  | (k, v) :: fs => quoteStr k ++ ':' :: (jser v ++ jserFieldsRest fs)
def jserFieldsRest : List (String × JVal) → List Char
  | [] => []
  | (k, v) :: fs => ',' :: (quoteStr k ++ ':' :: (jser v ++ jserFieldsRest fs))
end

/-- The serialized string. -/
def stringifyJson (v : JVal) : String := String.mk (jser v)

/-- An ASCII decimal digit. -/
def isDig (c : Char) : Bool := '0' ≤ c && c ≤ '9'

/-- The longest leading digit run and the remainder. -/
def takeDigitRun : List Char → List Char × List Char
  | [] => ([], [])
  | c :: r =>
    if isDig c then
      let (ds, r') := takeDigitRun r
      (c :: ds, r')
    else ([], c :: r)

/-- The number denoted by a digit run. -/
def digitsVal (ds : List Char) : Nat :=
  ds.foldl (fun a c => a * 10 + (c.toNat - 48)) 0

/-- Parse an integer literal (optional minus, nonempty digit run). -/
def readNum (cs : List Char) : Option (Int × List Char) :=
  match cs with
  | [] => none
  | c :: r =>
    if c = '-' then
      match takeDigitRun r with
      | ([], _) => none
      | (ds, r') => some (-(digitsVal ds : Int), r')
    else
      match takeDigitRun (c :: r) with
      | ([], _) => none
      | (ds, r') => some ((digitsVal ds : Int), r')

/-- Reverse of `escChar`'s two-character escapes. -/
def unescChar (c : Char) : Option Char :=
  if c = '"' then some '"'
  else if c = '\\' then some '\\'
  else if c = 'n' then some '\n'
  else if c = 't' then some '\t'
  else if c = 'r' then some '\r'
  else none

/-- Parse a string body after the opening quote, accumulating in reverse. -/
def readStr (acc : List Char) : List Char → Option (String × List Char)
  | [] => none
  | c :: r =>
    if c = '"' then some (String.mk acc.reverse, r)
    else if c = '\\' then
      match r with
      | [] => none
      | e :: r' =>
        match unescChar e with
        | some u => readStr (u :: acc) r'
        | none => none
    else readStr (c :: acc) r

mutual
/-- `JSON.parse` on the canonical grammar (fuel-indexed; the fuel is an
upper bound on the recursion and is discharged by the input length at
the entry point). -/
def jparse (fuel : Nat) (cs : List Char) : Option (JVal × List Char) :=
  match fuel with
  | 0 => none
  | fuel + 1 =>
    match cs with
    | 'n' :: 'u' :: 'l' :: 'l' :: r => some (.jnull, r)
    | 't' :: 'r' :: 'u' :: 'e' :: r => some (.jbool true, r)
    | 'f' :: 'a' :: 'l' :: 's' :: 'e' :: r => some (.jbool false, r)
    | '"' :: r =>
      match readStr [] r with
      | some (s, r') => some (.jstr s, r')
      | none => none
    | '[' :: r =>
      match r with
      | ']' :: r' => some (.jarr [], r')
      | _ =>
        match jparseItems fuel r with
        | some (es, r') => some (.jarr es, r')
        | none => none
    | c :: r =>
      if c = obrace then
        match r with
        | c' :: r' =>
          if c' = cbrace then some (.jobj [], r')
          else
            match jparseFields fuel (c' :: r') with
            | some (fs, r'') => some (.jobj fs, r'')
            | none => none
        | [] => none
      else if c = '-' || isDig c then
        match readNum (c :: r) with
        | some (n, r') => some (.jnum n, r')
        | none => none
      else none
    | [] => none
/-- One or more comma-separated array elements, then the closing `]`. -/
def jparseItems (fuel : Nat) (cs : List Char) : Option (List JVal × List Char) :=
  match fuel with
  | 0 => none
  | fuel + 1 =>
    match jparse fuel cs with
    | none => none
    | some (v, r) =>
      match r with
      | ',' :: r' =>
        match jparseItems fuel r' with
        | some (vs, r'') => some (v :: vs, r'')
        | none => none
      | ']' :: r' => some ([v], r')
      | _ => none
/-- One or more `"key":value` members, then the closing brace. -/
def jparseFields (fuel : Nat) (cs : List Char) :
    Option (List (String × JVal) × List Char) :=
  match fuel with
  | 0 => none
  | fuel + 1 =>
    match cs with
    | '"' :: r =>
      match readStr [] r with
      | none => none
      | some (k, r1) =>
        match r1 with
        | ':' :: r2 =>
          match jparse fuel r2 with
          | none => none
          | some (v, r3) =>
            match r3 with
            | ',' :: r4 =>
              match jparseFields fuel r4 with
              | some (fs, r5) => some ((k, v) :: fs, r5)
              | none => none
            | c :: r4 =>
              if c = cbrace then some ([(k, v)], r4) else none
            | [] => none
        | _ => none
    | _ => none
end

/-- `JSON.parse` of a whole document: no trailing characters allowed. -/
def parseJson (s : String) : Option JVal :=
  match jparse (s.data.length + 1) s.data with
  | some (v, []) => some v
  | _ => none

namespace UpstashAdapter

/-- upstash.ts `set`, serialization step: a primitive string is stored
verbatim, everything else is `JSON.stringify`ed. -/
def serialize (v : JVal) : String :=
  match v with
  | .jstr s => s
  | _ => stringifyJson v

/-- upstash.ts `get`, decoding step on the stored string: `JSON.parse`
it; when parsing fails return the raw string as-is. -/
def decode (stored : String) : JVal :=
  match parseJson stored with
  | some j => j
  | none => .jstr stored

/-- A `set` immediately followed by a `get` of the same key, at the value
level. -/
def roundTrip (v : JVal) : JVal := decode (serialize v)

/-- upstash.ts `get`, transport wrapper: a store failure is wrapped into
a tagged error; stored content is decoded, never an error. -/
def getResult (key : String) (fetched : Except String (Option String)) :
    Except String (Option JVal) :=
  match fetched with
  | .error msg => .error ("Failed to get key " ++ key ++ " from Upstash: " ++ msg)
  | .ok Option.none => .ok Option.none
  | .ok (some s) => .ok (some (decode s))

end UpstashAdapter

end StripeSdk

namespace StripeSdk

theorem digChar_spec (k : Nat) (h : k < 10) :
    (Char.ofNat (48 + k)).toNat - 48 = k ∧ isDig (Char.ofNat (48 + k)) = true := by
  interval_cases k <;> exact ⟨by decide, by decide⟩

theorem natBody_shift (n : Nat) : ∀ acc : List Char,
    natBody n acc = natBody n [] ++ acc := by
  induction n using Nat.strong_induction_on with
  | _ n ih =>
    intro acc
    by_cases h : n < 10
    · rw [show natBody n acc = Char.ofNat (48 + n % 10) :: acc from by
        rw [natBody]; simp [h]]
      rw [show natBody n [] = [Char.ofNat (48 + n % 10)] from by
        rw [natBody]; simp [h]]
      rfl
    · have l1 : natBody n acc = natBody (n / 10) (Char.ofNat (48 + n % 10) :: acc) := by
        rw [natBody]; simp [h]
      have l2 : natBody n [] = natBody (n / 10) [Char.ofNat (48 + n % 10)] := by
        rw [natBody]; simp [h]
      rw [l1, l2, ih (n / 10) (Nat.div_lt_self (by omega) (by omega)),
        ih (n / 10) (Nat.div_lt_self (by omega) (by omega)) [_]]
      simp

theorem natBody_last (n : Nat) :
    natBody n [] = (if n < 10 then [] else natBody (n / 10) [])
      ++ [Char.ofNat (48 + n % 10)] := by
  by_cases h : n < 10
  · rw [show natBody n [] = [Char.ofNat (48 + n % 10)] from by
      rw [natBody]; simp [h]]
    simp [h]
  · rw [show natBody n [] = natBody (n / 10) [Char.ofNat (48 + n % 10)] from by
      rw [natBody]; simp [h]]
    rw [if_neg h]
    exact natBody_shift (n / 10) [_]

theorem natBody_ne_nil (n : Nat) : natBody n [] ≠ [] := by
  rw [natBody_last]
  simp

theorem natBody_all_digits (n : Nat) : ∀ c ∈ natBody n [], isDig c = true := by
  induction n using Nat.strong_induction_on with
  | _ n ih =>
    rw [natBody_last]
    intro c hc
    rcases List.mem_append.mp hc with h | h
    · by_cases h10 : n < 10
      · simp [h10] at h
      · exact ih (n / 10) (Nat.div_lt_self (by omega) (by omega)) c (by simpa [h10] using h)
    · rw [List.mem_singleton] at h
      subst h
      exact (digChar_spec (n % 10) (Nat.mod_lt _ (by omega))).2

theorem natBody_val (n : Nat) : digitsVal (natBody n []) = n := by
  induction n using Nat.strong_induction_on with
  | _ n ih =>
    rw [natBody_last]
    by_cases h : n < 10
    · simp only [if_pos h, List.nil_append, digitsVal, List.foldl_cons, List.foldl_nil]
      rw [(digChar_spec (n % 10) (Nat.mod_lt _ (by omega))).1]
      omega
    · simp only [if_neg h, digitsVal, List.foldl_append, List.foldl_cons, List.foldl_nil]
      have := ih (n / 10) (Nat.div_lt_self (by omega) (by omega))
      rw [digitsVal] at this
      rw [this, (digChar_spec (n % 10) (Nat.mod_lt _ (by omega))).1]
      omega

/-- True when the input cannot extend a digit run: empty or headed by a
non-digit. -/
def noDigHead : List Char → Bool
  | [] => true
  | c :: _ => !(isDig c)

theorem takeDigitRun_stop {cs : List Char} (h : noDigHead cs = true) :
    takeDigitRun cs = ([], cs) := by
  match cs with
  | [] => rfl
  | c :: t =>
    simp only [noDigHead, Bool.not_eq_true'] at h
    simp [takeDigitRun, h]

theorem takeDigitRun_run (ds : List Char) (hds : ∀ c ∈ ds, isDig c = true)
    (rest : List Char) (hrest : noDigHead rest = true) :
    takeDigitRun (ds ++ rest) = (ds, rest) := by
  induction ds with
  | nil => simpa using takeDigitRun_stop hrest
  | cons c t ih =>
    have hc : isDig c = true := hds c (by simp)
    have ht := ih (fun x hx => hds x (by simp [hx]))
    simp [takeDigitRun, hc, ht]

theorem dig_ne_minus {c : Char} (h : isDig c = true) : c ≠ '-' := by
  intro he
  subst he
  exact absurd h (by decide)

theorem natBody_cons (n : Nat) :
    ∃ c t, natBody n [] = c :: t ∧ isDig c = true := by
  match h : natBody n [] with
  | [] => exact absurd h (natBody_ne_nil n)
  | c :: t =>
    refine ⟨c, t, rfl, natBody_all_digits n c ?_⟩
    rw [h]
    exact List.mem_cons_self c t

theorem readNum_intBody (i : Int) (rest : List Char)
    (hrest : noDigHead rest = true) :
    readNum (intBody i ++ rest) = some (i, rest) := by
  by_cases hneg : i < 0
  · have harg : intBody i ++ rest = '-' :: (natBody i.natAbs [] ++ rest) := by
      simp [intBody, hneg]
    rw [harg, readNum]
    rw [if_pos rfl, takeDigitRun_run _ (natBody_all_digits _) _ hrest]
    obtain ⟨c, t, hct, -⟩ := natBody_cons i.natAbs
    rw [hct]
    simp only [Option.some.injEq, Prod.mk.injEq]
    refine ⟨?_, trivial⟩
    rw [show digitsVal (c :: t) = i.natAbs from by rw [← hct, natBody_val]]
    omega
  · obtain ⟨c, t, hct, hc⟩ := natBody_cons i.natAbs
    have harg : intBody i ++ rest = c :: (t ++ rest) := by
      simp [intBody, hneg, hct]
    rw [harg, readNum]
    rw [if_neg (dig_ne_minus hc), ← List.cons_append, ← hct,
      takeDigitRun_run _ (natBody_all_digits _) _ hrest]
    rw [hct]
    simp only [Option.some.injEq, Prod.mk.injEq]
    refine ⟨?_, trivial⟩
    rw [show digitsVal (c :: t) = i.natAbs from by rw [← hct, natBody_val]]
    omega

end StripeSdk

namespace StripeSdk

theorem readStr_escStep (c : Char) (acc rest : List Char) :
    readStr acc (escChar c ++ rest) = readStr (c :: acc) rest := by
  by_cases h1 : c = '"'
  · subst h1; rfl
  by_cases h2 : c = '\\'
  · subst h2; rfl
  by_cases h3 : c = '\n'
  · subst h3; rfl
  by_cases h4 : c = '\t'
  · subst h4; rfl
  by_cases h5 : c = '\r'
  · subst h5; rfl
  rw [show escChar c = [c] from by simp [escChar, h1, h2, h3, h4, h5]]
  conv_lhs => rw [readStr.eq_def]
  simp [h1, h2]

theorem readStr_body : ∀ (cs acc rest : List Char),
    readStr acc (cs.bind escChar ++ '"' :: rest) =
      some (String.mk (acc.reverse ++ cs), rest) := by
  intro cs
  induction cs with
  | nil =>
    intro acc rest
    conv_lhs => rw [readStr.eq_def]
    simp
  | cons c cs' ih =>
    intro acc rest
    rw [show (c :: cs').bind escChar ++ '"' :: rest =
      escChar c ++ (cs'.bind escChar ++ '"' :: rest) from by
        simp [List.cons_bind]]
    rw [readStr_escStep, ih]
    simp

theorem readStr_quote (s : String) (rest : List Char) :
    readStr [] (s.data.bind escChar ++ '"' :: rest) = some (s, rest) := by
  rw [readStr_body]
  simp

end StripeSdk

namespace StripeSdk

theorem dig_not_special {c : Char} (h : isDig c = true) :
    c ≠ 'n' ∧ c ≠ 't' ∧ c ≠ 'f' ∧ c ≠ '"' ∧ c ≠ '[' ∧ c ≠ obrace
      ∧ c ≠ ']' ∧ c ≠ cbrace := by
  refine ⟨?_, ?_, ?_, ?_, ?_, ?_, ?_, ?_⟩ <;>
    (intro he; subst he; exact absurd h (by decide))

/-- Every serialized value starts with a character that closes nothing. -/
theorem jser_head (v : JVal) :
    ∃ c t, jser v = c :: t ∧ c ≠ ']' ∧ c ≠ cbrace := by
  cases v with
  | jnull => exact ⟨'n', _, rfl, by decide, by decide⟩
  | jbool b => cases b with
    | true => exact ⟨'t', _, rfl, by decide, by decide⟩
    | false => exact ⟨'f', _, rfl, by decide, by decide⟩
  | jstr s => exact ⟨'"', _, rfl, by decide, by decide⟩
  | jarr es => exact ⟨'[', _, rfl, by decide, by decide⟩
  | jobj fs => exact ⟨obrace, _, rfl, by decide, by decide⟩
  | jnum n =>
    by_cases hneg : n < 0
    · refine ⟨'-', natBody n.natAbs [], ?_, by decide, by decide⟩
      simp [jser, intBody, hneg]
    · obtain ⟨c, t, hct, hc⟩ := natBody_cons n.natAbs
      obtain ⟨-, -, -, -, -, -, h7, h8⟩ := dig_not_special hc
      refine ⟨c, t, ?_, h7, h8⟩
      simp [jser, intBody, hneg, hct]

theorem jparse_numStep (f : Nat) (c : Char) (t : List Char)
    (hc : c = '-' ∨ isDig c = true) :
    jparse (f + 1) (c :: t) =
      (match readNum (c :: t) with
       | some (n, r') => some (.jnum n, r')
       | none => none) := by
  have hfacts : c ≠ 'n' ∧ c ≠ 't' ∧ c ≠ 'f' ∧ c ≠ '"' ∧ c ≠ '[' ∧ c ≠ obrace := by
    rcases hc with hc | hc
    · subst hc
      exact ⟨by decide, by decide, by decide, by decide, by decide, by decide⟩
    · obtain ⟨h1, h2, h3, h4, h5, h6, -, -⟩ := dig_not_special hc
      exact ⟨h1, h2, h3, h4, h5, h6⟩
  obtain ⟨h1, h2, h3, h4, h5, h6⟩ := hfacts
  have hcond : (c = '-' || isDig c) = true := by
    rcases hc with hc | hc <;> simp [hc]
  conv_lhs => rw [jparse.eq_def]
  simp [h1, h2, h3, h4, h5, h6, hcond]

theorem jparse_arrStep (f : Nat) (c : Char) (t : List Char) (hc : c ≠ ']') :
    jparse (f + 1) ('[' :: c :: t) =
      (match jparseItems f (c :: t) with
       | some (es, r') => some (.jarr es, r')
       | none => none) := by
  conv_lhs => rw [jparse.eq_def]
  simp [hc]

theorem jparse_objStep (f : Nat) (c : Char) (t : List Char) (hc : c ≠ cbrace) :
    jparse (f + 1) (obrace :: c :: t) =
      (match jparseFields f (c :: t) with
       | some (fs, r') => some (.jobj fs, r')
       | none => none) := by
  have hc' : c ≠ Char.ofNat 125 := hc
  conv_lhs => rw [jparse.eq_def]
  simp [obrace, cbrace, hc']

theorem jparseItems_step (f : Nat) (cs : List Char) :
    jparseItems (f + 1) cs =
      (match jparse f cs with
       | none => none
       | some (v, r) =>
         match r with
         | ',' :: r' =>
           match jparseItems f r' with
           | some (vs, r'') => some (v :: vs, r'')
           | none => none
         | ']' :: r' => some ([v], r')
         | _ => none) := rfl

theorem jparseFields_step (f : Nat) (cs : List Char) :
    jparseFields (f + 1) cs =
      (match cs with
       | '"' :: r =>
         match readStr [] r with
         | none => none
         | some (k, r1) =>
           match r1 with
           | ':' :: r2 =>
             match jparse f r2 with
             | none => none
             | some (v, r3) =>
               match r3 with
               | ',' :: r4 =>
                 match jparseFields f r4 with
                 | some (fs, r5) => some ((k, v) :: fs, r5)
                 | none => none
               | c :: r4 =>
                 if c = cbrace then some ([(k, v)], r4) else none
               | [] => none
           | _ => none
       | _ => none) := rfl

theorem jser_length_pos (v : JVal) : 1 ≤ (jser v).length := by
  obtain ⟨c, t, hct, -, -⟩ := jser_head v
  rw [hct]
  simp

end StripeSdk

namespace StripeSdk

theorem jparse_strStep (f : Nat) (r : List Char) :
    jparse (f + 1) ('"' :: r) =
      (match readStr [] r with
       | some (s, r') => some (.jstr s, r')
       | none => none) := rfl

mutual
theorem rt_jparse : ∀ (v : JVal) (f : Nat) (rest : List Char),
    (jser v).length < f → noDigHead rest = true →
    jparse f (jser v ++ rest) = some (v, rest)
  | .jnull, f, rest, hf, _ => by
    cases f with
    | zero => simp [jser] at hf
    | succ f => rfl
  | .jbool true, f, rest, hf, _ => by
    cases f with
    | zero => simp [jser] at hf
    | succ f => rfl
  | .jbool false, f, rest, hf, _ => by
    cases f with
    | zero => simp [jser] at hf
    | succ f => rfl
  | .jnum n, f, rest, hf, hrest => by
    cases f with
    | zero => exact absurd hf (Nat.not_lt_zero _)
    | succ f =>
      have hread := readNum_intBody n rest hrest
      by_cases hneg : n < 0
      · have harg : jser (.jnum n) ++ rest = '-' :: (natBody n.natAbs [] ++ rest) := by
          simp [jser, intBody, hneg]
        have harg2 : intBody n ++ rest = '-' :: (natBody n.natAbs [] ++ rest) := by
          simp [intBody, hneg]
        rw [harg, jparse_numStep f '-' _ (Or.inl rfl), ← harg2, hread]
      · obtain ⟨c, t, hct, hc⟩ := natBody_cons n.natAbs
        have harg : jser (.jnum n) ++ rest = c :: (t ++ rest) := by
          simp [jser, intBody, hneg, hct]
        have harg2 : intBody n ++ rest = c :: (t ++ rest) := by
          simp [intBody, hneg, hct]
        rw [harg, jparse_numStep f c _ (Or.inr hc), ← harg2, hread]
  | .jstr s, f, rest, hf, _ => by
    cases f with
    | zero => exact absurd hf (Nat.not_lt_zero _)
    | succ f =>
      have harg : jser (.jstr s) ++ rest =
          '"' :: (s.data.bind escChar ++ '"' :: rest) := by
        simp [jser, quoteStr]
      rw [harg, jparse_strStep, readStr_quote s rest]
  | .jarr [], f, rest, hf, _ => by
    cases f with
    | zero => exact absurd hf (Nat.not_lt_zero _)
    | succ f => rfl
  | .jarr (e :: es), f, rest, hf, _ => by
    cases f with
    | zero => exact absurd hf (Nat.not_lt_zero _)
    | succ f =>
      obtain ⟨c, t, hct, hc, -⟩ := jser_head e
      have hitems : jserItems (e :: es) ++ ']' :: rest =
          c :: (t ++ (jserRest es ++ ']' :: rest)) := by
        simp [jserItems, hct]
      have harg : jser (.jarr (e :: es)) ++ rest =
          '[' :: (jserItems (e :: es) ++ ']' :: rest) := by
        simp [jser]
      have hfuel : (jserItems (e :: es)).length + 1 < f := by
        have : (jser (.jarr (e :: es))).length =
            (jserItems (e :: es)).length + 2 := by
          simp [jser]
        omega
      rw [harg, hitems, jparse_arrStep f c _ hc, ← hitems,
        rt_items e es f rest hfuel]
  | .jobj [], f, rest, hf, _ => by
    cases f with
    | zero => exact absurd hf (Nat.not_lt_zero _)
    | succ f => rfl
  | .jobj ((k, v) :: fs), f, rest, hf, _ => by
    cases f with
    | zero => exact absurd hf (Nat.not_lt_zero _)
    | succ f =>
      have hfieldsHead : jserFields ((k, v) :: fs) ++ cbrace :: rest =
          '"' :: (k.data.bind escChar ++
            ('"' :: ':' :: (jser v ++ (jserFieldsRest fs ++ cbrace :: rest)))) := by
        simp [jserFields, quoteStr]
      have harg : jser (.jobj ((k, v) :: fs)) ++ rest =
          obrace :: (jserFields ((k, v) :: fs) ++ cbrace :: rest) := by
        simp [jser]
      have hfuel : (jserFields ((k, v) :: fs)).length + 1 < f := by
        have : (jser (.jobj ((k, v) :: fs))).length =
            (jserFields ((k, v) :: fs)).length + 2 := by
          simp [jser]
        omega
      rw [harg, hfieldsHead, jparse_objStep f '"' _ (by decide), ← hfieldsHead,
        rt_fields k v fs f rest hfuel]
termination_by v _ _ _ _ => sizeOf v
decreasing_by
  all_goals
    ((try subst_vars)
     (try simp only [List.cons.sizeOf_spec, Prod.mk.sizeOf_spec, JVal.jarr.sizeOf_spec,
       JVal.jobj.sizeOf_spec])
     omega)
theorem rt_items : ∀ (e : JVal) (es : List JVal) (f : Nat) (rest : List Char),
    (jserItems (e :: es)).length + 1 < f →
    jparseItems f (jserItems (e :: es) ++ ']' :: rest) = some (e :: es, rest)
  | e, es, f, rest, hf => by
    cases f with
    | zero => exact absurd hf (Nat.not_lt_zero _)
    | succ f =>
      have hsplit : jserItems (e :: es) ++ ']' :: rest =
          jser e ++ (jserRest es ++ ']' :: rest) := by
        simp [jserItems]
      have hlen : (jserItems (e :: es)).length =
          (jser e).length + (jserRest es).length := by
        simp [jserItems]
      have hone := jser_length_pos e
      have hfe : (jser e).length < f := by omega
      have hnd : noDigHead (jserRest es ++ ']' :: rest) = true := by
        cases es with
        | nil => rfl
        | cons e2 es' => rfl
      rw [jparseItems_step, hsplit, rt_jparse e f _ hfe hnd]
      cases es with
      | nil => rfl
      | cons e2 es' =>
        have hsplit2 : jserRest (e2 :: es') ++ ']' :: rest =
            ',' :: (jserItems (e2 :: es') ++ ']' :: rest) := by
          simp [jserRest, jserItems]
        have hlen2 : (jserRest (e2 :: es')).length =
            (jserItems (e2 :: es')).length + 1 := by
          simp [jserRest, jserItems]
        have hfuel2 : (jserItems (e2 :: es')).length + 1 < f := by omega
        rw [show jserRest (e2 :: es') ++ ']' :: rest =
          ',' :: (jserItems (e2 :: es') ++ ']' :: rest) from hsplit2]
        simp only []
        rw [rt_items e2 es' f rest hfuel2]
termination_by e es _ _ _ => 1 + sizeOf e + sizeOf es
decreasing_by
  all_goals
    ((try subst_vars)
     (try simp only [List.cons.sizeOf_spec, Prod.mk.sizeOf_spec, JVal.jarr.sizeOf_spec,
       JVal.jobj.sizeOf_spec])
     omega)
theorem rt_fields : ∀ (k : String) (v : JVal) (fs : List (String × JVal))
    (f : Nat) (rest : List Char),
    (jserFields ((k, v) :: fs)).length + 1 < f →
    jparseFields f (jserFields ((k, v) :: fs) ++ cbrace :: rest) =
      some ((k, v) :: fs, rest)
  | k, v, fs, f, rest, hf => by
    cases f with
    | zero => exact absurd hf (Nat.not_lt_zero _)
    | succ f =>
      have hsplit : jserFields ((k, v) :: fs) ++ cbrace :: rest =
          '"' :: (k.data.bind escChar ++
            ('"' :: ':' :: (jser v ++ (jserFieldsRest fs ++ cbrace :: rest)))) := by
        simp [jserFields, quoteStr]
      have hlen : (jserFields ((k, v) :: fs)).length =
          (quoteStr k).length + 1 + (jser v).length +
            (jserFieldsRest fs).length := by
        simp [jserFields]
        omega
      have hqlen : 2 ≤ (quoteStr k).length := by
        simp [quoteStr]
      have hfv : (jser v).length < f := by omega
      have hnd : noDigHead (jserFieldsRest fs ++ cbrace :: rest) = true := by
        cases fs with
        | nil => rfl
        | cons kv fs' => rfl
      rw [jparseFields_step, hsplit]
      simp only []
      rw [show k.data.bind escChar ++
          ('"' :: ':' :: (jser v ++ (jserFieldsRest fs ++ cbrace :: rest))) =
          k.data.bind escChar ++ '"' ::
            (':' :: (jser v ++ (jserFieldsRest fs ++ cbrace :: rest))) from by simp]
      rw [readStr_quote k _]
      simp only []
      rw [rt_jparse v f _ hfv hnd]
      cases fs with
      | nil =>
        rw [show jserFieldsRest [] ++ cbrace :: rest = cbrace :: rest from by
          simp [jserFieldsRest]]
        rfl
      | cons kv fs' =>
        cases kv with
        | mk k2 v2 =>
          have hsplit2 : jserFieldsRest ((k2, v2) :: fs') ++ cbrace :: rest =
              ',' :: (jserFields ((k2, v2) :: fs') ++ cbrace :: rest) := by
            simp [jserFieldsRest, jserFields]
          have hlen2 : (jserFieldsRest ((k2, v2) :: fs')).length =
              (jserFields ((k2, v2) :: fs')).length + 1 := by
            simp [jserFieldsRest, jserFields]
          have hfuel2 : (jserFields ((k2, v2) :: fs')).length + 1 < f := by omega
          rw [show jserFieldsRest ((k2, v2) :: fs') ++ cbrace :: rest =
            ',' :: (jserFields ((k2, v2) :: fs') ++ cbrace :: rest) from hsplit2]
          simp only []
          rw [rt_fields k2 v2 fs' f rest hfuel2]
termination_by _ v fs _ _ _ => 1 + sizeOf v + sizeOf fs
decreasing_by
  all_goals
    ((try subst_vars)
     (try simp only [List.cons.sizeOf_spec, Prod.mk.sizeOf_spec, JVal.jarr.sizeOf_spec,
       JVal.jobj.sizeOf_spec])
     omega)
end

end StripeSdk

namespace StripeSdk

/-- `JSON.parse (JSON.stringify v)` recovers `v` for every value of the
modelled JSON fragment. -/
theorem stringify_parse_roundtrip (v : JVal) :
    parseJson (stringifyJson v) = some v := by
  have h := rt_jparse v ((jser v).length + 1) [] (Nat.lt_succ_self _) rfl
  rw [List.append_nil] at h
  show (match jparse ((jser v).length + 1) (jser v) with
    | some (w, []) => some w
    | _ => none) = some v
  rw [h]

/-- C8, counterexample: the Upstash adapter does NOT return every stored
primitive string unchanged. The string "5" is stored verbatim, but `get`
JSON-parses the stored text, so it comes back as the number 5, not the
string "5". -/
theorem upstash_string_roundtrip_counterexample :
    UpstashAdapter.serialize (.jstr "5") = "5" ∧
    UpstashAdapter.roundTrip (.jstr "5") = .jnum 5 ∧
    UpstashAdapter.roundTrip (.jstr "5") ≠ .jstr "5" := by
  refine ⟨rfl, rfl, fun h => ?_⟩
  exact JVal.noConfusion (show JVal.jnum 5 = JVal.jstr "5" from h)

/-- C8 (amended): set-then-get round-trips every NON-string value (it is
serialized to JSON text on write and decoded back on read); a stored
string is returned as-is exactly when it fails to parse as JSON, and is
replaced by its parse result when it does parse; and `get` never throws
on stored content — decoding failure falls back to the raw string. -/
theorem upstash_set_get_decoding (v : JVal) (s : String) :
    ((∀ t, v ≠ JVal.jstr t) → UpstashAdapter.roundTrip v = v) ∧
    (parseJson s = none → UpstashAdapter.roundTrip (.jstr s) = .jstr s) ∧
    (∀ j, parseJson s = some j → UpstashAdapter.roundTrip (.jstr s) = j) ∧
    (∀ key, UpstashAdapter.getResult key (.ok (some s)) =
      .ok (some (UpstashAdapter.decode s))) := by
  refine ⟨fun h => ?_, fun h => ?_, fun j h => ?_, fun key => rfl⟩
  · have hser : UpstashAdapter.serialize v = stringifyJson v := by
      cases v
      case jstr t => exact absurd rfl (h t)
      all_goals rfl
    show UpstashAdapter.decode (UpstashAdapter.serialize v) = v
    rw [hser]
    unfold UpstashAdapter.decode
    rw [stringify_parse_roundtrip]
  · show UpstashAdapter.decode s = JVal.jstr s
    unfold UpstashAdapter.decode
    rw [h]
  · show UpstashAdapter.decode s = j
    unfold UpstashAdapter.decode
    rw [h]

/-- Witness: a number round-trips; the non-JSON string "hello" comes back
unchanged; the string "true" comes back as the boolean true; get wraps
decoded content in ok. -/
theorem upstash_set_get_decoding_witness :
    UpstashAdapter.roundTrip (.jnum 7) = .jnum 7 ∧
    UpstashAdapter.roundTrip (.jstr "hello") = .jstr "hello" ∧
    UpstashAdapter.roundTrip (.jstr "true") = .jbool true ∧
    UpstashAdapter.getResult "k" (.ok (some "hello")) =
      .ok (some (.jstr "hello")) := by
  refine ⟨(upstash_set_get_decoding (.jnum 7) "x").1 (fun t h => nomatch h),
    (upstash_set_get_decoding (.jnum 7) "hello").2.1 rfl,
    (upstash_set_get_decoding (.jnum 7) "true").2.2.1 (.jbool true) rfl,
    ?_⟩
  have h := (upstash_set_get_decoding (.jnum 7) "hello").2.2.2 "k"
  rw [h]
  rfl

end StripeSdk
